import Mathlib

/-!
# Live result channel of the fire-detection frontend

A shallow embedding of `frontend/src/config/api.js`,
`frontend/src/composables/useScriptSocket.js`, `frontend/src/utils/format.js` and
`frontend/src/services/fireApi.js`.

* JavaScript strings are Lean strings; `startsWith` and `slice` are the
  prefix test and the suffix of the character sequence.
* JavaScript values that reach the component through `JSON.parse` are
  `JSValue`s.
* The closure variables of `useScriptSocket` form a `Channel`; the browser
  objects the component talks to (every `WebSocket` constructed so far and
  the pending `setTimeout` timers) complete it to a `World`.
* Every function of the source is a function on these states; an exception
  is an `Except.error`.
* A request function of `fireApi.js` is a function of the `Response` its `fetch`
  resolves to; a rejected promise is an `Except.error`.
-/

namespace FireFrontend

/-! ## JavaScript strings -/

/-- JavaScript `s.startsWith(pre)`. -/
def startsWith (s pre : String) : Bool :=
  pre.data.isPrefixOf s.data

/-- JavaScript `s.slice(n)` for `0 ≤ n`: the string without its first `n` units. -/
def slice (s : String) (n : Nat) : String :=
  ⟨s.data.drop n⟩

/-! ## config/api.js -/

/-- The function `getWsBaseUrl(httpBase)` of `config/api.js`. -/
def getWsBaseUrl (httpBase : String) : String :=
  if startsWith httpBase "https://" then
    "wss://" ++ slice httpBase "https://".length
  else if startsWith httpBase "http://" then
    "ws://" ++ slice httpBase "http://".length
  else
    httpBase

/-! ## JavaScript values -/

/-- Exceptions the modelled code can meet. -/
inductive JSError where
  | SyntaxError
  | TypeError
  deriving DecidableEq, Repr

/-- A JavaScript number as `JSON.parse` can produce it: a finite double given by
its exact value (`finite 0` is `+0`), negative zero, or an infinity. -/
inductive JSNumber where
  | finite (q : ℚ)
  | negZero
  | infinity (negative : Bool)
  deriving DecidableEq

/-- A JavaScript value: `undefined` and the values `JSON.parse` returns. An object
is the list of its own properties; the first entry for a key is its value. -/
inductive JSValue where
  | undefined
  | null
  | bool (b : Bool)
  | number (n : JSNumber)
  | string (s : String)
  | array (xs : List JSValue)
  | object (fields : List (String × JSValue))

namespace JSNumber

/-- ToBoolean on numbers: only the zeros (and NaN, which `JSON.parse` never
yields) are falsy. -/
def truthy : JSNumber → Bool
  | finite q => decide (q ≠ 0)
  | negZero => false
  | infinity _ => true

end JSNumber

namespace JSValue

/-- ToBoolean of JavaScript. -/
def truthy : JSValue → Bool
  | undefined => false
  | null => false
  | bool b => b
  | number n => n.truthy
  | string s => decide (s ≠ "")
  | array _ => true
  | object _ => true

/-- The expression `a || b`. -/
def or (a b : JSValue) : JSValue :=
  if a.truthy then a else b

/-- The test `v !== "lit"` against a string literal. -/
def strictNeString (v : JSValue) (lit : String) : Bool :=
  match v with
  | string s => decide (s ≠ lit)
  | _ => true

/-- Property read `v.key` for a key that no built-in prototype defines (`type`,
`image_data_url`, `fire_detected`, `result_text`): a `TypeError` on `undefined`
and `null`, the own property of an object, `undefined` everywhere else. -/
def getProp (v : JSValue) (key : String) : Except JSError JSValue :=
  match v with
  | undefined => .error .TypeError
  | null => .error .TypeError
  | object fields => .ok ((fields.lookup key).getD undefined)
  | _ => .ok undefined

end JSValue

/-! ## Browser objects -/

/-- The values of `WebSocket.readyState`. -/
inductive ReadyState where
  | CONNECTING
  | OPEN
  | CLOSING
  | CLOSED
  deriving DecidableEq, Repr

/-- A `WebSocket` object: the URL it was constructed with and its ready state. -/
structure WebSocket where
  url : String
  readyState : ReadyState
  deriving DecidableEq, Repr

/-- What the module reads from its surroundings: the configured `apiBase` and
which URLs the platform's `WebSocket` constructor accepts (it throws a
`SyntaxError` on the others). -/
structure Env where
  apiBase : String
  urlAccepted : String → Bool

/-- The constructor call `new WebSocket(url)`. -/
def WebSocket.construct (env : Env) (url : String) : Except JSError WebSocket :=
  if env.urlAccepted url then .ok { url := url, readyState := .CONNECTING }
  else .error .SyntaxError

/-- The method `socket.close()`: nothing on a closing or closed socket, otherwise
the ready state becomes `CLOSING`. -/
def WebSocket.close (s : WebSocket) : WebSocket :=
  match s.readyState with
  | .CLOSING => s
  | .CLOSED => s
  | _ => { s with readyState := .CLOSING }

/-- A socket counts as live while it is open or connecting. -/
def WebSocket.live (s : WebSocket) : Bool :=
  s.readyState = .OPEN || s.readyState = .CONNECTING

/-! ## composables/useScriptSocket.js: state -/

/-- The closure variables of `useScriptSocket`: the five refs and the two `let`
bindings. A socket is named by its index in `World.sockets`, a timer by its id. -/
structure Channel where
  scriptPreviewUrl : JSValue
  scriptResultText : JSValue
  scriptFireDetected : Bool
  scriptErrorText : String
  scriptSocketConnected : Bool
  scriptSocket : Option Nat
  scriptReconnectTimer : Option Nat

/-- The channel together with the browser state it acts on: every `WebSocket`
constructed so far (in order of construction), the ids of the pending timeouts,
and the id the next `setTimeout` returns. -/
structure World where
  ch : Channel
  sockets : List WebSocket
  timers : List Nat
  nextTimerId : Nat

/-- The state right after `useScriptSocket()` returns. -/
def World.init : World where
  ch :=
    { scriptPreviewUrl := .string ""
      scriptResultText := .string ""
      scriptFireDetected := false
      scriptErrorText := ""
      scriptSocketConnected := false
      scriptSocket := none
      scriptReconnectTimer := none }
  sockets := []
  timers := []
  nextTimerId := 1

/-- The ready state of socket `i`, if it was ever constructed. -/
def World.readyStateOf (w : World) (i : Nat) : Option ReadyState :=
  (w.sockets[i]?).map (·.readyState)

/-- Socket `i` exists and is open or connecting. -/
def World.isLive (w : World) (i : Nat) : Bool :=
  match w.sockets[i]? with
  | some s => s.live
  | none => false

/-- The indices of the live sockets. -/
def World.liveSockets (w : World) : List Nat :=
  (List.range w.sockets.length).filter w.isLive

/-- The browser moves socket `i` to ready state `r`. -/
def World.setReadyState (w : World) (i : Nat) (r : ReadyState) : World :=
  { w with sockets := w.sockets.modify (fun s => { s with readyState := r }) i }

/-- The call `socket.close()` on socket `i`. -/
def World.closeSocket (w : World) (i : Nat) : World :=
  { w with sockets := w.sockets.modify WebSocket.close i }

/-! ## composables/useScriptSocket.js: functions -/

/-- The guard of `connectScriptSocket`: `scriptSocket` is set and its ready state
is `OPEN` or `CONNECTING`. -/
def World.trackedLive (w : World) : Bool :=
  match w.ch.scriptSocket with
  | some i => w.readyStateOf i = some .OPEN || w.readyStateOf i = some .CONNECTING
  | none => false

/-- The function `connectScriptSocket()`: returns at once when the tracked socket is
open or connecting; otherwise constructs a socket for the endpoint and tracks it.
The four handlers it installs are `onopen`, `onmessage`, `onclose`, `onerror`
below, each taking the index of the socket it was installed on. -/
def connectScriptSocket (env : Env) (w : World) : Except JSError World :=
  if w.trackedLive then
    .ok w
  else
    let wsBase := getWsBaseUrl env.apiBase
    let wsUrl := wsBase ++ "/ws/script/latest-upload-image"
    match WebSocket.construct env wsUrl with
    | .error e => .error e
    | .ok created =>
      let socket := w.sockets.length
      .ok { w with
        sockets := w.sockets ++ [created]
        ch := { w.ch with scriptSocket := some socket } }

/-- The body of the callback handed to `setTimeout`: clear the handle, then call
`connectScriptSocket()`. An exception leaves the state reached when it was
thrown, which is the one with the handle cleared. -/
def reconnectCallback (env : Env) (w : World) : World :=
  let w1 := { w with ch := { w.ch with scriptReconnectTimer := none } }
  match connectScriptSocket env w1 with
  | .ok w2 => w2
  | .error _ => w1

/-- The function `scheduleScriptReconnect()`: nothing when a handle is stored,
otherwise `window.setTimeout(callback, 2000)` whose id becomes the handle. -/
def scheduleScriptReconnect (w : World) : World :=
  match w.ch.scriptReconnectTimer with
  | some _ => w
  | none =>
    { w with
      timers := w.timers ++ [w.nextTimerId]
      nextTimerId := w.nextTimerId + 1
      ch := { w.ch with scriptReconnectTimer := some w.nextTimerId } }

/-- The handler `socket.onopen`. -/
def onopen (c : Channel) : Channel :=
  { c with scriptSocketConnected := true, scriptErrorText := "" }

/-- The `try` block of `socket.onmessage`; `parsed` is the outcome of
`JSON.parse(event.data)`, `none` when it throws. -/
def onmessageTry (c : Channel) (parsed : Option JSValue) : Except JSError Channel := do
  let payload ←
    match parsed with
    | some v => pure v
    | none => throw JSError.SyntaxError
  let type ← payload.getProp "type"
  if type.strictNeString "script_upload_result" then
    return c
  let image_data_url ← payload.getProp "image_data_url"
  let c1 := if image_data_url.truthy then { c with scriptPreviewUrl := image_data_url } else c
  let fire_detected ← payload.getProp "fire_detected"
  let c2 := { c1 with scriptFireDetected := fire_detected.truthy }
  let result_text ← payload.getProp "result_text"
  let c3 := { c2 with scriptResultText := result_text.or (.string "") }
  return { c3 with scriptErrorText := "" }

/-- The handler `socket.onmessage`: the `try` block, and the `catch` block when
the `try` block throws (which it does before any assignment). -/
def onmessage (c : Channel) (parsed : Option JSValue) : Except JSError Channel :=
  match onmessageTry c parsed with
  | .ok c1 => .ok c1
  | .error _ => .ok { c with scriptErrorText := "脚本模块消息解析失败" }

/-- The handler `socket.onclose` installed on socket `socket`. -/
def onclose (socket : Nat) (w : World) : World :=
  if w.ch.scriptSocket = some socket then
    scheduleScriptReconnect
      { w with ch := { w.ch with scriptSocket := none, scriptSocketConnected := false } }
  else
    w

/-- The handler `socket.onerror` installed on socket `socket`. -/
def onerror (socket : Nat) (w : World) : World :=
  w.closeSocket socket

/-- The function `cleanupScriptSocket()`; `clearTimeout` removes the id from the
pending timeouts. -/
def cleanupScriptSocket (w : World) : World :=
  let w1 :=
    match w.ch.scriptSocket with
    | some socket =>
      { w.closeSocket socket with ch := { w.ch with scriptSocket := none } }
    | none => w
  match w1.ch.scriptReconnectTimer with
  | some t =>
    { w1 with
      timers := w1.timers.erase t
      ch := { w1.ch with scriptReconnectTimer := none } }
  | none => w1

/-! ## The event loop -/

/-- What can happen to the component: a call of one of its two exported
functions, a pending timeout firing, or an event on a constructed socket. A
message event carries the outcome of `JSON.parse(event.data)`. -/
inductive Event where
  | connect
  | cleanup
  | timer (id : Nat)
  | opened (socket : Nat)
  | message (socket : Nat) (parsed : Option JSValue)
  | error (socket : Nat)
  | close (socket : Nat)

/-- One turn of the event loop. The browser fires `open` on a connecting socket
(which becomes `OPEN`), `message` on an open socket, `error` on any constructed
socket, and `close` once per socket, when it becomes `CLOSED`; a timeout fires
only while pending, and is no longer pending when its callback runs. An event
the browser cannot fire, and an exception that escapes, leave the state as it
is. -/
def step (env : Env) (w : World) : Event → World
  | .connect =>
    match connectScriptSocket env w with
    | .ok w1 => w1
    | .error _ => w
  | .cleanup => cleanupScriptSocket w
  | .timer id =>
    if id ∈ w.timers then reconnectCallback env { w with timers := w.timers.erase id }
    else w
  | .opened socket =>
    if w.readyStateOf socket = some .CONNECTING then
      let w1 := w.setReadyState socket .OPEN
      { w1 with ch := onopen w1.ch }
    else w
  | .message socket parsed =>
    if w.readyStateOf socket = some .OPEN then
      match onmessage w.ch parsed with
      | .ok c => { w with ch := c }
      | .error _ => w
    else w
  | .error socket =>
    if socket < w.sockets.length then onerror socket w else w
  | .close socket =>
    match w.readyStateOf socket with
    | none => w
    | some .CLOSED => w
    | some _ => onclose socket (w.setReadyState socket .CLOSED)

/-- The state after a sequence of events. -/
def run (env : Env) (w : World) (events : List Event) : World :=
  events.foldl (step env) w

/-- The states the component can be in: those some sequence of events leads to
from the initial state. -/
inductive Reachable (env : Env) : World → Prop where
  | init : Reachable env World.init
  | step (w : World) (e : Event) : Reachable env w → Reachable env (step env w e)

/-- What every reachable state satisfies: a live socket is the tracked one, the
tracked socket exists and has not reached `CLOSED`, and the pending timeouts are
exactly the stored handle. -/
structure Inv (w : World) : Prop where
  live_tracked : ∀ i, w.isLive i = true → w.ch.scriptSocket = some i
  tracked_open : ∀ i, w.ch.scriptSocket = some i →
    ∃ r, w.readyStateOf i = some r ∧ r ≠ .CLOSED
  timers_eq : w.timers = w.ch.scriptReconnectTimer.toList

/-- The default configuration: `apiBase` is the fallback of `config/api.js`, and
the constructor accepts `ws:` and `wss:` URLs. -/
def Env.default : Env where
  apiBase := "http://127.0.0.1:8000"
  urlAccepted := fun url => startsWith url "ws://" || startsWith url "wss://"

/-- The state after `n` calls of `connectScriptSocket()` in a row. -/
def connectTimes (env : Env) : Nat → World → World
  | 0, w => w
  | n + 1, w => connectTimes env n (step env w .connect)

/-- The Latest Result: preview reference, detection flag, result description and
last error. -/
def Channel.latestResult (c : Channel) : JSValue × Bool × JSValue × String :=
  (c.scriptPreviewUrl, c.scriptFireDetected, c.scriptResultText, c.scriptErrorText)

/-- The last-known result on display: preview reference, detection flag and result
description. -/
def Channel.lastKnown (c : Channel) : JSValue × Bool × JSValue :=
  (c.scriptPreviewUrl, c.scriptFireDetected, c.scriptResultText)

/-! ## Sample states and messages -/

/-- A connection that was opened. -/
def World.connected : World :=
  run Env.default World.init [.connect, .opened 0]

/-- A connection that was opened and lost, with the application calling
`connectScriptSocket()` before the reconnect timer fires: socket 1 is connecting
and timer 1 is pending. -/
def World.reconnecting : World :=
  run Env.default World.init [.connect, .opened 0, .close 0, .connect]

/-- A connection on which an unparsable message arrived, was lost, and whose
reconnect timer fired: socket 1 is connecting and last error is set. -/
def World.retrying : World :=
  run Env.default World.init
    [.connect, .opened 0, .message 0 none, .close 0, .timer 1]

/-- The message `{type: "script_upload_result", fire_detected: 1, result_text: "x"}`. -/
def sampleResult : List (String × JSValue) :=
  [("type", .string "script_upload_result"),
   ("fire_detected", .number (.finite 1)),
   ("result_text", .string "x")]

/-- The message `{type: "script_upload_result", image_data_url:
"data:image/png;base64,AAAA", result_text: "old"}`. -/
def earlierResult : List (String × JSValue) :=
  [("type", .string "script_upload_result"),
   ("image_data_url", .string "data:image/png;base64,AAAA"),
   ("result_text", .string "old")]

/-- The message `{type: "other"}`. -/
def otherMessage : List (String × JSValue) :=
  [("type", .string "other")]

/-- An open connection showing an earlier result. -/
def World.showing : World :=
  run Env.default World.init [.connect, .opened 0, .message 0 (some (.object earlierResult))]

/-- The URL `connectScriptSocket` hands to the `WebSocket` constructor. -/
def Env.endpoint (env : Env) : String :=
  getWsBaseUrl env.apiBase ++ "/ws/script/latest-upload-image"

/-- A configuration whose `apiBase` has a scheme `getWsBaseUrl` passes through: the
endpoint is `ftp://h/ws/script/latest-upload-image`, which the constructor
rejects. -/
def Env.passedThrough : Env where
  apiBase := "ftp://h"
  urlAccepted := fun url => startsWith url "ws://" || startsWith url "wss://"

/-- A connection that was opened and then torn down with `cleanupScriptSocket()`. -/
def World.tornDown : World :=
  run Env.default World.init [.connect, .opened 0, .cleanup]

/-! ## utils/format.js -/

/-- The code points `String.prototype.trim` strips: WhiteSpace and LineTerminator
of ECMAScript. -/
def isTrimmed (c : Char) : Bool :=
  c.val = 0x0009 || c.val = 0x000A || c.val = 0x000B || c.val = 0x000C || c.val = 0x000D ||
  c.val = 0x0020 || c.val = 0x00A0 || c.val = 0x1680 ||
  (0x2000 ≤ c.val && c.val ≤ 0x200A) ||
  c.val = 0x2028 || c.val = 0x2029 || c.val = 0x202F || c.val = 0x205F ||
  c.val = 0x3000 || c.val = 0xFEFF

/-- JavaScript `s.trim()`. -/
def trim (s : String) : String :=
  ⟨(s.data.dropWhile isTrimmed).rdropWhile isTrimmed⟩

/-- JavaScript `s.toLowerCase()` on the ASCII letters; other code points are kept.
The source only compares the result with `"fire"`, `"normal"`, `"no_fire"` and
`"nofire"`, and no code point outside ASCII lowercases to a letter of these
words, so the comparisons come out as in JavaScript. -/
def toLowerCase (s : String) : String :=
  ⟨s.data.map Char.toLower⟩

/-- The function `getMonitorStatusText(status)` of `utils/format.js`; `none` is a
`null` or `undefined` argument, for which `status ?? ""` is the empty string. -/
def getMonitorStatusText (status : Option String) : String :=
  let raw := trim (status.getD "")
  let normalized := toLowerCase raw
  if normalized = "fire" ∨ raw = "发生火灾" then
    "发生火灾"
  else if normalized = "normal" ∨ normalized = "no_fire" ∨ normalized = "nofire" ∨
      raw = "无火灾" then
    "无火灾"
  else if raw ≠ "" then raw else "-"

/-- The function `getMonitorStatusClass(status)` of `utils/format.js`. -/
def getMonitorStatusClass (status : Option String) : String :=
  let statusText := getMonitorStatusText status
  if statusText = "发生火灾" then
    "monitor-status-fire"
  else if statusText = "无火灾" then
    "monitor-status-normal"
  else
    ""

/-- The function `resolveMonitorImageUrl(url, apiBase)` of `utils/format.js`; `none`
is a `null` or `undefined` url, falsy like the empty string. -/
def resolveMonitorImageUrl (url : Option String) (apiBase : String) : String :=
  match url with
  | none => ""
  | some url =>
    if url = "" then
      ""
    else if startsWith url "http://" || startsWith url "https://" then
      url
    else if startsWith url "/" then
      apiBase ++ url
    else
      apiBase ++ "/" ++ url

/-! ## services/fireApi.js -/

/-- A `fetch` response as the request functions read it: the `ok` flag, the body
text, and the outcome of parsing the body as JSON (`none` when it is not JSON). -/
structure Response where
  ok : Bool
  text : String
  json : Option JSValue

/-- What the promise of a request function rejects with: `new Error(arg)`, whose
message is `String(arg)` (for a string, the string itself), or an exception
raised by the platform. -/
inductive Rejection where
  | Error (arg : JSValue)
  | thrown (e : JSError)

/-- The method `response.json()`. -/
def Response.parseJson (response : Response) : Except Rejection JSValue :=
  match response.json with
  | some v => .ok v
  | none => .error (.thrown .SyntaxError)

/-- The read `data.detail`, a `TypeError` on `null`. -/
def readDetail (data : JSValue) : Except Rejection JSValue :=
  match data.getProp "detail" with
  | .ok v => .ok v
  | .error e => .error (.thrown e)

/-- The function `parseJsonResponse(response)` of `services/fireApi.js`. -/
def parseJsonResponse (response : Response) : JSValue :=
  let text := response.text
  if text = "" then
    .object []
  else
    match response.json with
    | some v => v
    | none => .object [("detail", .string text)]

/-- The function `detectManualFireRequest`, from the response of its `fetch` on. -/
def detectManualFireRequest (response : Response) : Except Rejection JSValue := do
  let data ← response.parseJson
  if !response.ok then
    let detail ← readDetail data
    throw (Rejection.Error (detail.or (.string "检测失败，请稍后重试。")))
  return data

/-- The function `fetchMonitorRecords`, from the response of its `fetch` on. -/
def fetchMonitorRecords (response : Response) : Except Rejection JSValue := do
  let data := parseJsonResponse response
  if !response.ok then
    let detail ← readDetail data
    throw (Rejection.Error (detail.or (.string "获取数据监控列表失败")))
  match data with
  | .array xs => return .array xs
  | _ => return .array []

/-- The function `createMonitorRecord`, from the response of its `fetch` on. -/
def createMonitorRecord (response : Response) : Except Rejection JSValue := do
  let data := parseJsonResponse response
  if !response.ok then
    let detail ← readDetail data
    throw (Rejection.Error (detail.or (.string "新增失败")))
  return data

/-- The function `updateMonitorRecord`, from the response of its `fetch` on. -/
def updateMonitorRecord (response : Response) : Except Rejection JSValue := do
  let data := parseJsonResponse response
  if !response.ok then
    let detail ← readDetail data
    throw (Rejection.Error (detail.or (.string "更新失败")))
  return data

/-- The function `deleteMonitorRecordRequest`, from the response of its `fetch` on. -/
def deleteMonitorRecordRequest (response : Response) : Except Rejection JSValue := do
  let data := parseJsonResponse response
  if !response.ok then
    let detail ← readDetail data
    throw (Rejection.Error (detail.or (.string "删除失败")))
  return data

/-- A failure page that is not JSON. -/
def Response.plainFailure : Response where
  ok := false
  text := "Internal Server Error"
  json := none

/-- A failure whose body is the JSON text `null`. -/
def Response.nullFailure : Response where
  ok := false
  text := "null"
  json := some .null

/-- A success whose body is the JSON number `5`. -/
def Response.numberSuccess : Response where
  ok := true
  text := "5"
  json := some (.number (.finite 5))

/-- A failure whose body is the JSON object with `detail` set to `"bad file"`. -/
def Response.detailFailure : Response where
  ok := false
  text := "\x7b\"detail\": \"bad file\"\x7d"
  json := some (.object [("detail", .string "bad file")])

/-! ## Strings: helper lemmas -/

theorem startsWith_iff (s pre : String) :
    startsWith s pre = true ↔ ∃ r : String, s = pre ++ r := by
  unfold startsWith
  rw [List.isPrefixOf_iff_prefix]
  constructor
  · rintro ⟨t, ht⟩
    exact ⟨⟨t⟩, by apply String.ext; simp [ht]⟩
  · rintro ⟨r, rfl⟩
    exact ⟨r.data, by simp⟩

theorem startsWith_eq_false (s pre : String) (h : ∀ r : String, s ≠ pre ++ r) :
    startsWith s pre = false := by
  cases hs : startsWith s pre
  · rfl
  · obtain ⟨r, hr⟩ := (startsWith_iff _ _).1 hs
    exact absurd hr (h r)

theorem slice_append (pre r : String) : slice (pre ++ r) pre.length = r := by
  unfold slice
  apply String.ext
  show (pre ++ r).data.drop pre.data.length = r.data
  rw [String.data_append, List.drop_left]

/-! ## Sockets: helper lemmas -/

theorem isLive_iff (w : World) (i : Nat) :
    w.isLive i = true ↔ ∃ s, w.sockets[i]? = some s ∧ s.live = true := by
  unfold World.isLive
  cases h : w.sockets[i]? <;> simp

theorem isLive_lt (w : World) (i : Nat) (h : w.isLive i = true) : i < w.sockets.length := by
  obtain ⟨s, hs, _⟩ := (isLive_iff w i).1 h
  exact (List.getElem?_eq_some.1 hs).1

theorem trackedLive_iff (w : World) :
    w.trackedLive = true ↔ ∃ i, w.ch.scriptSocket = some i ∧ w.isLive i = true := by
  unfold World.trackedLive World.isLive World.readyStateOf WebSocket.live
  cases h : w.ch.scriptSocket with
  | none => simp
  | some i => cases h2 : w.sockets[i]? <;> simp [h2]

theorem close_not_live (s : WebSocket) : s.close.live = false := by
  unfold WebSocket.close WebSocket.live
  cases h : s.readyState <;> simp [h]

theorem isLive_closeSocket (w : World) (j i : Nat) (h : (w.closeSocket j).isLive i = true) :
    w.isLive i = true ∧ i ≠ j := by
  rw [isLive_iff] at h
  obtain ⟨s, hs, hl⟩ := h
  simp only [World.closeSocket, List.getElem?_modify] at hs
  cases hi : w.sockets[i]? with
  | none => simp [hi] at hs
  | some s0 =>
    simp only [hi, Option.map_eq_map, Option.map_some', Option.some.injEq] at hs
    by_cases hji : j = i
    · subst hji
      simp only [if_true] at hs
      subst hs
      rw [close_not_live] at hl
      exact absurd hl (by simp)
    · simp only [hji, if_false] at hs
      subst hs
      exact ⟨(isLive_iff w i).2 ⟨s0, hi, hl⟩, fun e => hji e.symm⟩

theorem isLive_setReadyState (w : World) (j i : Nat) (r : ReadyState)
    (h : (w.setReadyState j r).isLive i = true) :
    (i ≠ j ∧ w.isLive i = true) ∨ (i = j ∧ (r = .OPEN ∨ r = .CONNECTING)) := by
  rw [isLive_iff] at h
  obtain ⟨s, hs, hl⟩ := h
  simp only [World.setReadyState, List.getElem?_modify] at hs
  cases hi : w.sockets[i]? with
  | none => simp [hi] at hs
  | some s0 =>
    simp only [hi, Option.map_eq_map, Option.map_some', Option.some.injEq] at hs
    by_cases hji : j = i
    · subst hji
      simp only [if_true] at hs
      subst hs
      right
      refine ⟨rfl, ?_⟩
      simpa [WebSocket.live] using hl
    · simp only [hji, if_false] at hs
      subst hs
      exact Or.inl ⟨fun e => hji e.symm, (isLive_iff w i).2 ⟨s0, hi, hl⟩⟩

theorem readyStateOf_connecting_live (w : World) (i : Nat)
    (h : w.readyStateOf i = some .CONNECTING) : w.isLive i = true := by
  unfold World.readyStateOf at h
  rw [isLive_iff]
  cases hi : w.sockets[i]? with
  | none => simp [hi] at h
  | some s =>
    simp only [hi, Option.map_some', Option.some.injEq] at h
    exact ⟨s, rfl, by simp [WebSocket.live, h]⟩

theorem readyStateOf_setReadyState (w : World) (j i : Nat) (r : ReadyState) :
    (w.setReadyState j r).readyStateOf i =
      if j = i then (w.readyStateOf i).map (fun _ => r) else w.readyStateOf i := by
  simp only [World.readyStateOf, World.setReadyState, List.getElem?_modify]
  cases hi : w.sockets[i]? with
  | none => simp
  | some s => by_cases hji : j = i <;> simp [hji]

theorem readyStateOf_closeSocket (w : World) (j i : Nat) (r : ReadyState)
    (h : w.readyStateOf i = some r) (hr : r ≠ .CLOSED) :
    ∃ r1, (w.closeSocket j).readyStateOf i = some r1 ∧ r1 ≠ .CLOSED := by
  simp only [World.readyStateOf, World.closeSocket, List.getElem?_modify] at h ⊢
  cases hi : w.sockets[i]? with
  | none => simp [hi] at h
  | some s =>
    simp only [hi, Option.map_some', Option.some.injEq] at h
    by_cases hji : j = i
    · simp only [hji, if_true, Option.map_eq_map, Option.map_some', Option.some.injEq,
        exists_eq_left']
      unfold WebSocket.close
      cases hs : s.readyState <;> simp [hs]
      rw [hs] at h
      exact hr h.symm
    · simp only [hji, if_false, Option.map_eq_map, Option.map_some', Option.some.injEq,
        exists_eq_left']
      rw [h]
      exact hr

/-! ## The consistency invariant -/

theorem inv_init : Inv World.init where
  live_tracked := by
    intro i h
    have := isLive_lt _ _ h
    simp [World.init] at this
  tracked_open := by
    intro i h
    simp [World.init] at h
  timers_eq := rfl

theorem connect_cases (env : Env) (w w1 : World) (h : connectScriptSocket env w = .ok w1) :
    w1 = w ∨
    (w.trackedLive = false ∧ ∃ created : WebSocket, created.readyState = .CONNECTING ∧
      w1 = { w with
        sockets := w.sockets ++ [created]
        ch := { w.ch with scriptSocket := some w.sockets.length } }) := by
  unfold connectScriptSocket at h
  by_cases hl : w.trackedLive = true
  · simp only [hl, if_true, Except.ok.injEq] at h
    exact Or.inl h.symm
  · have hl2 : w.trackedLive = false := by simpa using hl
    simp only [hl2] at h
    unfold WebSocket.construct at h
    by_cases hu : env.urlAccepted (getWsBaseUrl env.apiBase ++ "/ws/script/latest-upload-image") = true
    · simp only [hu, if_true, Bool.false_eq_true, if_false, Except.ok.injEq] at h
      right
      exact ⟨hl2, ⟨_, .CONNECTING⟩, rfl, h.symm⟩
    · simp [hu] at h

theorem inv_connect (env : Env) (w w1 : World) (hw : Inv w)
    (h : connectScriptSocket env w = .ok w1) : Inv w1 := by
  rcases connect_cases env w w1 h with rfl | ⟨hl, created, hc, rfl⟩
  · exact hw
  · constructor
    · intro i hi
      rw [isLive_iff] at hi
      obtain ⟨s, hs, hlive⟩ := hi
      simp only [List.getElem?_append] at hs
      by_cases hlt : i < w.sockets.length
      · simp only [hlt, if_true] at hs
        have h1 : w.isLive i = true := (isLive_iff w i).2 ⟨s, hs, hlive⟩
        have h2 : w.trackedLive = true := (trackedLive_iff w).2 ⟨i, hw.live_tracked i h1, h1⟩
        rw [hl] at h2
        exact absurd h2 (by simp)
      · simp only [hlt, if_false] at hs
        have hlen := (List.getElem?_eq_some.1 hs).1
        simp only [List.length_singleton] at hlen
        have : i = w.sockets.length := by omega
        simp [this]
    · intro i hi
      have hi2 : w.sockets.length = i := by simpa using hi
      subst hi2
      exact ⟨.CONNECTING, by simp [World.readyStateOf, hc], by simp⟩
    · exact hw.timers_eq

theorem inv_schedule (w : World) (hw : Inv w) : Inv (scheduleScriptReconnect w) := by
  unfold scheduleScriptReconnect
  cases ht : w.ch.scriptReconnectTimer with
  | some t => simpa [ht] using hw
  | none =>
    simp only [ht]
    constructor
    · intro i hi
      exact hw.live_tracked i hi
    · intro i hi
      exact hw.tracked_open i hi
    · have := hw.timers_eq
      rw [ht] at this
      simp [this]

theorem inv_cleanup (w : World) (hw : Inv w) : Inv (cleanupScriptSocket w) := by
  have key : ∀ w1 : World, (∀ i, w1.isLive i = true → w1.ch.scriptSocket = some i) →
      w1.ch.scriptSocket = none →
      w1.timers = w1.ch.scriptReconnectTimer.toList →
      Inv (match w1.ch.scriptReconnectTimer with
        | some t =>
          { w1 with
            timers := w1.timers.erase t
            ch := { w1.ch with scriptReconnectTimer := none } }
        | none => w1) := by
    intro w1 h1 hn h2
    cases ht : w1.ch.scriptReconnectTimer with
    | none => exact ⟨h1, fun i hi => by rw [hn] at hi; exact absurd hi (by simp), h2⟩
    | some t =>
      constructor
      · intro i hi
        exact h1 i hi
      · intro i hi
        have hi2 : w1.ch.scriptSocket = some i := hi
        rw [hn] at hi2
        exact absurd hi2 (by simp)
      · rw [ht] at h2
        simp [h2]
  unfold cleanupScriptSocket
  apply key
  · cases hs : w.ch.scriptSocket with
    | none =>
      intro i hi
      have := hw.live_tracked i hi
      rw [hs] at this
      exact absurd this (by simp)
    | some socket =>
      intro i hi
      have h3 := isLive_closeSocket w socket i hi
      have h4 := hw.live_tracked i h3.1
      rw [hs] at h4
      exact absurd (Option.some.inj h4).symm h3.2
  · cases hs : w.ch.scriptSocket with
    | none => exact hs
    | some socket => rfl
  · cases hs : w.ch.scriptSocket with
    | none => exact hw.timers_eq
    | some socket => exact hw.timers_eq

theorem inv_onclose (w : World) (socket : Nat) (hw : Inv w) :
    Inv (onclose socket (w.setReadyState socket .CLOSED)) := by
  have hlive : ∀ i, (w.setReadyState socket .CLOSED).isLive i = true →
      i ≠ socket ∧ w.isLive i = true := by
    intro i hi
    rcases isLive_setReadyState w socket i .CLOSED hi with h | ⟨_, h⟩
    · exact h
    · simp at h
  unfold onclose
  by_cases ht : (w.setReadyState socket .CLOSED).ch.scriptSocket = some socket
  · rw [if_pos ht]
    apply inv_schedule
    constructor
    · intro i hi
      have h1 := hlive i hi
      have h2 := hw.live_tracked i h1.2
      have h3 : w.ch.scriptSocket = some socket := ht
      rw [h3] at h2
      exact absurd (Option.some.inj h2).symm h1.1
    · intro i hi
      simp at hi
    · exact hw.timers_eq
  · rw [if_neg ht]
    constructor
    · intro i hi
      exact hw.live_tracked i (hlive i hi).2
    · intro i hi
      have hi2 : w.ch.scriptSocket = some i := hi
      have hne : socket ≠ i := by
        intro e
        subst e
        exact ht hi
      rw [readyStateOf_setReadyState, if_neg hne]
      exact hw.tracked_open i hi2
    · exact hw.timers_eq

theorem onmessageTry_none (c : Channel) : onmessageTry c none = .error .SyntaxError := rfl

theorem onmessageTry_throws (c : Channel) (payload : JSValue) (e : JSError)
    (hp : payload.getProp "type" = .error e) : onmessageTry c (some payload) = .error e := by
  simp [onmessageTry, hp, bind, Except.bind, pure, Except.pure]

theorem onmessageTry_skips (c : Channel) (payload t : JSValue)
    (hp : payload.getProp "type" = .ok t)
    (ht : t.strictNeString "script_upload_result" = true) :
    onmessageTry c (some payload) = .ok c := by
  simp [onmessageTry, hp, ht, bind, Except.bind, pure, Except.pure]

theorem onmessageTry_object (c : Channel) (fields : List (String × JSValue)) :
    onmessageTry c (some (.object fields)) =
      if ((fields.lookup "type").getD .undefined).strictNeString "script_upload_result" then
        .ok c
      else
        .ok
          { (if ((fields.lookup "image_data_url").getD .undefined).truthy then
                { c with scriptPreviewUrl := (fields.lookup "image_data_url").getD .undefined }
              else c) with
            scriptFireDetected := ((fields.lookup "fire_detected").getD .undefined).truthy
            scriptResultText := ((fields.lookup "result_text").getD .undefined).or (.string "")
            scriptErrorText := "" } := by
  simp only [onmessageTry, JSValue.getProp, bind, Except.bind, pure, Except.pure]

theorem onmessageTry_frame (c c1 : Channel) (parsed : Option JSValue)
    (h : onmessageTry c parsed = .ok c1) :
    c1.scriptSocket = c.scriptSocket ∧ c1.scriptReconnectTimer = c.scriptReconnectTimer ∧
      c1.scriptSocketConnected = c.scriptSocketConnected := by
  cases parsed with
  | none => simp [onmessageTry_none] at h
  | some payload =>
    have skip : ∀ t, payload.getProp "type" = .ok t →
        t.strictNeString "script_upload_result" = true →
        c1.scriptSocket = c.scriptSocket ∧ c1.scriptReconnectTimer = c.scriptReconnectTimer ∧
          c1.scriptSocketConnected = c.scriptSocketConnected := by
      intro t hp ht
      rw [onmessageTry_skips c payload t hp ht] at h
      cases h
      exact ⟨rfl, rfl, rfl⟩
    cases payload with
    | undefined => rw [onmessageTry_throws c .undefined .TypeError rfl] at h; cases h
    | null => rw [onmessageTry_throws c .null .TypeError rfl] at h; cases h
    | bool b => exact skip .undefined rfl rfl
    | number n => exact skip .undefined rfl rfl
    | string s => exact skip .undefined rfl rfl
    | array xs => exact skip .undefined rfl rfl
    | object fields =>
      rw [onmessageTry_object] at h
      split at h
      · cases h
        exact ⟨rfl, rfl, rfl⟩
      · cases h
        split <;> exact ⟨rfl, rfl, rfl⟩

theorem onmessage_frame (c : Channel) (parsed : Option JSValue) :
    ∃ c1, onmessage c parsed = .ok c1 ∧
      c1.scriptSocket = c.scriptSocket ∧ c1.scriptReconnectTimer = c.scriptReconnectTimer ∧
      c1.scriptSocketConnected = c.scriptSocketConnected := by
  unfold onmessage
  cases h : onmessageTry c parsed with
  | error e => exact ⟨_, rfl, rfl, rfl, rfl⟩
  | ok c1 => exact ⟨c1, rfl, onmessageTry_frame c c1 parsed h⟩

theorem inv_step (env : Env) (w : World) (e : Event) (hw : Inv w) : Inv (step env w e) := by
  cases e with
  | connect =>
    simp only [step]
    cases h : connectScriptSocket env w with
    | error err => exact hw
    | ok w1 => exact inv_connect env w w1 hw h
  | cleanup => exact inv_cleanup w hw
  | timer id =>
    simp only [step]
    by_cases hin : id ∈ w.timers
    · rw [if_pos hin]
      have hcleared : Inv { w with
          timers := w.timers.erase id
          ch := { w.ch with scriptReconnectTimer := none } } := by
        constructor
        · intro i hi
          exact hw.live_tracked i hi
        · intro i hi
          exact hw.tracked_open i hi
        · have ht := hw.timers_eq
          cases hh : w.ch.scriptReconnectTimer with
          | none =>
            rw [hh] at ht
            rw [ht] at hin
            simp at hin
          | some t =>
            rw [hh] at ht
            rw [ht] at hin
            simp only [Option.toList_some, List.mem_singleton] at hin
            subst hin
            simp [ht]
      unfold reconnectCallback
      simp only
      cases h : connectScriptSocket env { w with
          timers := w.timers.erase id
          ch := { w.ch with scriptReconnectTimer := none } } with
      | error err => exact hcleared
      | ok w2 => exact inv_connect env _ w2 hcleared h
    · rw [if_neg hin]
      exact hw
  | opened socket =>
    simp only [step]
    by_cases hc : w.readyStateOf socket = some .CONNECTING
    · rw [if_pos hc]
      constructor
      · intro i hi
        have hi2 : (w.setReadyState socket .OPEN).isLive i = true := hi
        rcases isLive_setReadyState w socket i .OPEN hi2 with h | ⟨h, _⟩
        · exact hw.live_tracked i h.2
        · subst h
          exact hw.live_tracked i (readyStateOf_connecting_live w i hc)
      · intro i hi
        have hi2 : w.ch.scriptSocket = some i := hi
        obtain ⟨r, hr1, hr2⟩ := hw.tracked_open i hi2
        show ∃ r, (w.setReadyState socket .OPEN).readyStateOf i = some r ∧ r ≠ .CLOSED
        rw [readyStateOf_setReadyState]
        by_cases hji : socket = i
        · simp [hji, hr1]
        · simp [hji, hr1, hr2]
      · exact hw.timers_eq
    · rw [if_neg hc]
      exact hw
  | message socket parsed =>
    simp only [step]
    by_cases hc : w.readyStateOf socket = some .OPEN
    · rw [if_pos hc]
      obtain ⟨c1, h1, h2, h3, _⟩ := onmessage_frame w.ch parsed
      rw [h1]
      constructor
      · intro i hi
        have : w.isLive i = true := hi
        simpa [h2] using hw.live_tracked i this
      · intro i hi
        have hi2 : c1.scriptSocket = some i := hi
        rw [h2] at hi2
        exact hw.tracked_open i hi2
      · simpa [h3] using hw.timers_eq
    · rw [if_neg hc]
      exact hw
  | error socket =>
    simp only [step]
    by_cases hc : socket < w.sockets.length
    · rw [if_pos hc]
      constructor
      · intro i hi
        exact hw.live_tracked i (isLive_closeSocket w socket i hi).1
      · intro i hi
        obtain ⟨r, hr1, hr2⟩ := hw.tracked_open i hi
        exact readyStateOf_closeSocket w socket i r hr1 hr2
      · exact hw.timers_eq
    · rw [if_neg hc]
      exact hw
  | close socket =>
    simp only [step]
    cases h : w.readyStateOf socket with
    | none => exact hw
    | some r =>
      cases r
      case CLOSED => exact hw
      all_goals exact inv_onclose w socket hw

theorem inv_reachable (env : Env) (w : World) (h : Reachable env w) : Inv w := by
  induction h with
  | init => exact inv_init
  | step w e _ ih => exact inv_step env w e ih

theorem run_append (env : Env) (w : World) (es fs : List Event) :
    run env w (es ++ fs) = run env (run env w es) fs := by
  simp [run, List.foldl_append]

theorem reachable_run (env : Env) (w : World) (events : List Event) (h : Reachable env w) :
    Reachable env (run env w events) := by
  induction events generalizing w with
  | nil => exact h
  | cons e es ih => exact ih _ (Reachable.step w e h)

theorem reachable_iff_run (env : Env) (w : World) :
    Reachable env w ↔ ∃ events, w = run env World.init events := by
  constructor
  · intro h
    induction h with
    | init => exact ⟨[], rfl⟩
    | step w e _ ih =>
      obtain ⟨es, rfl⟩ := ih
      exact ⟨es ++ [e], by rw [run_append]; rfl⟩
  · rintro ⟨es, rfl⟩
    exact reachable_run env _ es Reachable.init

theorem liveSockets_length_le (w : World) (hw : Inv w) : w.liveSockets.length ≤ 1 := by
  have hnd : w.liveSockets.Nodup := (List.nodup_range _).filter _
  have hmem : ∀ i ∈ w.liveSockets, w.ch.scriptSocket = some i := by
    intro i hi
    exact hw.live_tracked i (List.mem_filter.1 hi).2
  cases ht : w.ch.scriptSocket with
  | none =>
    have : w.liveSockets = [] := by
      apply List.eq_nil_iff_forall_not_mem.2
      intro i hi
      have := hmem i hi
      rw [ht] at this
      exact absurd this (by simp)
    simp [this]
  | some k =>
    have hsub : w.liveSockets ⊆ [k] := by
      intro i hi
      have := hmem i hi
      rw [ht] at this
      simp [Option.some.inj this]
    exact (List.subperm_of_subset hnd hsub).length_le

theorem connected_reachable : Reachable Env.default World.connected :=
  reachable_run _ _ _ Reachable.init

theorem reconnecting_reachable : Reachable Env.default World.reconnecting :=
  reachable_run _ _ _ Reachable.init

theorem retrying_reachable : Reachable Env.default World.retrying :=
  reachable_run _ _ _ Reachable.init

theorem trackedLive_created (w : World) (created : WebSocket)
    (hc : created.readyState = .CONNECTING) :
    World.trackedLive { w with
      sockets := w.sockets ++ [created]
      ch := { w.ch with scriptSocket := some w.sockets.length } } = true := by
  simp [World.trackedLive, World.readyStateOf, hc]

theorem connect_noop (env : Env) (w : World) (h : w.trackedLive = true) :
    connectScriptSocket env w = .ok w := by
  simp [connectScriptSocket, h]

theorem step_connect_cases (env : Env) (w : World) :
    step env w .connect = w ∨
    (w.trackedLive = false ∧ (step env w .connect).trackedLive = true ∧
      (step env w .connect).sockets.length = w.sockets.length + 1) := by
  simp only [step]
  cases h : connectScriptSocket env w with
  | error e => exact Or.inl rfl
  | ok w1 =>
    rcases connect_cases env w w1 h with rfl | ⟨hl, created, hc, rfl⟩
    · exact Or.inl rfl
    · exact Or.inr ⟨hl, trackedLive_created w created hc, by simp⟩

theorem connectTimes_of_live (env : Env) (n : Nat) (w : World) (h : w.trackedLive = true) :
    connectTimes env n w = w := by
  induction n with
  | zero => rfl
  | succ n ih =>
    have : step env w .connect = w := by simp [step, connect_noop env w h]
    simp only [connectTimes, this, ih]

theorem connectTimes_length (env : Env) (n : Nat) (w : World) :
    (connectTimes env n w).sockets.length ≤ w.sockets.length + 1 := by
  induction n generalizing w with
  | zero => simp [connectTimes]
  | succ n ih =>
    simp only [connectTimes]
    rcases step_connect_cases env w with h | ⟨_, h2, h3⟩
    · rw [h]
      exact ih w
    · rw [connectTimes_of_live env n _ h2, h3]

theorem onmessage_accepted (c : Channel) (fields : List (String × JSValue))
    (ht : fields.lookup "type" = some (.string "script_upload_result")) :
    onmessage c (some (.object fields)) = .ok
      { (if ((fields.lookup "image_data_url").getD .undefined).truthy then
            { c with scriptPreviewUrl := (fields.lookup "image_data_url").getD .undefined }
          else c) with
        scriptFireDetected := ((fields.lookup "fire_detected").getD .undefined).truthy
        scriptResultText := ((fields.lookup "result_text").getD .undefined).or (.string "")
        scriptErrorText := "" } := by
  simp [onmessage, onmessageTry_object, ht, JSValue.strictNeString]

theorem onmessage_ignored (c : Channel) (payload t : JSValue)
    (hp : payload.getProp "type" = .ok t)
    (ht : t.strictNeString "script_upload_result" = true) :
    onmessage c (some payload) = .ok c := by
  simp [onmessage, onmessageTry_skips c payload t hp ht]

theorem onmessage_failed (c : Channel) :
    onmessage c none = .ok { c with scriptErrorText := "脚本模块消息解析失败" } := by
  simp [onmessage, onmessageTry_none]

theorem strictNe_of_lookup (fields : List (String × JSValue))
    (h : fields.lookup "type" ≠ some (.string "script_upload_result")) :
    ((fields.lookup "type").getD .undefined).strictNeString "script_upload_result" = true := by
  cases hl : fields.lookup "type" with
  | none => rfl
  | some v =>
    cases v with
    | string s =>
      have : s ≠ "script_upload_result" := by
        intro e
        subst e
        exact h hl
      simp [JSValue.strictNeString, this]
    | _ => rfl

theorem lastKnown_of_latestResult (c c1 : Channel)
    (h : c1.latestResult = c.latestResult) : c1.lastKnown = c.lastKnown := by
  simp only [Channel.latestResult, Prod.mk.injEq] at h
  simp [Channel.lastKnown, h.1, h.2.1, h.2.2.1]

theorem connect_latestResult (env : Env) (w w1 : World)
    (h : connectScriptSocket env w = .ok w1) : w1.ch.latestResult = w.ch.latestResult := by
  rcases connect_cases env w w1 h with rfl | ⟨_, _, _, rfl⟩ <;> rfl

theorem schedule_latestResult (w : World) :
    (scheduleScriptReconnect w).ch.latestResult = w.ch.latestResult := by
  unfold scheduleScriptReconnect
  split <;> rfl

/-- The steps that leave the Latest Result alone: the two exported functions, a
timer firing, and the close and error events. -/
theorem step_latestResult (env : Env) (w : World) :
    (step env w .connect).ch.latestResult = w.ch.latestResult ∧
    (step env w .cleanup).ch.latestResult = w.ch.latestResult ∧
    (∀ id, (step env w (.timer id)).ch.latestResult = w.ch.latestResult) ∧
    (∀ socket, (step env w (.close socket)).ch.latestResult = w.ch.latestResult) ∧
    (∀ socket, (step env w (.error socket)).ch.latestResult = w.ch.latestResult) := by
  refine ⟨?_, ?_, ?_, ?_, ?_⟩
  · simp only [step]
    cases h : connectScriptSocket env w with
    | error e => rfl
    | ok w1 => exact connect_latestResult env w w1 h
  · simp only [step, cleanupScriptSocket]
    cases w.ch.scriptSocket <;> cases hh : w.ch.scriptReconnectTimer <;> simp [hh] <;> rfl
  · intro id
    simp only [step]
    split
    · unfold reconnectCallback
      simp only
      split
      · rename_i w2 h
        exact (connect_latestResult env _ w2 h).trans rfl
      · rfl
    · rfl
  · intro socket
    simp only [step]
    have key : (onclose socket (w.setReadyState socket .CLOSED)).ch.latestResult =
        w.ch.latestResult := by
      unfold onclose
      split
      · rw [schedule_latestResult]
        rfl
      · rfl
    split <;> first | rfl | exact key
  · intro socket
    simp only [step]
    split <;> rfl

theorem step_opened_lastKnown (env : Env) (w : World) (socket : Nat) :
    (step env w (.opened socket)).ch.lastKnown = w.ch.lastKnown := by
  simp only [step]
  split <;> rfl

/-! ## The claims -/

/-- C1: in every state reachable from the initial state through connect calls,
cleanup calls, timer firings and socket events, at most one constructed socket is
live (open or connecting), every live socket is the tracked one, and at most one
reconnect timer is pending. -/
theorem reachable_one_live_one_timer (env : Env) (w : World) (h : Reachable env w) :
    w.liveSockets.length ≤ 1 ∧
    (∀ i j, w.isLive i = true → w.isLive j = true → i = j) ∧
    (∀ i, w.isLive i = true → w.ch.scriptSocket = some i) ∧
    w.timers.length ≤ 1 := by
  have hw := inv_reachable env w h
  refine ⟨liveSockets_length_le w hw, ?_, hw.live_tracked, ?_⟩
  · intro i j hi hj
    have h1 := hw.live_tracked i hi
    have h2 := hw.live_tracked j hj
    rw [h1] at h2
    exact Option.some.inj h2
  · rw [hw.timers_eq]
    cases w.ch.scriptReconnectTimer <;> simp

/-- Witness for C1: the state with socket 0 closed, socket 1 connecting and timer 1
pending is reachable, and it has one live socket and one pending timer. -/
theorem reachable_one_live_one_timer_witness :
    Reachable Env.default World.reconnecting ∧
    World.reconnecting.liveSockets = [1] ∧ World.reconnecting.timers = [1] ∧
    (World.reconnecting.liveSockets.length ≤ 1 ∧
      (∀ i j, World.reconnecting.isLive i = true → World.reconnecting.isLive j = true → i = j) ∧
      (∀ i, World.reconnecting.isLive i = true → World.reconnecting.ch.scriptSocket = some i) ∧
      World.reconnecting.timers.length ≤ 1) :=
  ⟨reconnecting_reachable, by decide, by decide,
    reachable_one_live_one_timer Env.default World.reconnecting reconnecting_reachable⟩

/-- C2: while the tracked socket is open or connecting, `connectScriptSocket()`
returns the state it was called in (no socket constructed; tracked socket, timer
handle and the five refs unchanged); and any number of calls in a row, from any
state, constructs at most one socket, and none when the tracked socket was live. -/
theorem connect_idempotent (env : Env) (w : World) :
    (w.trackedLive = true → connectScriptSocket env w = .ok w) ∧
    (∀ n, (connectTimes env n w).sockets.length ≤ w.sockets.length + 1) ∧
    (∀ n, w.trackedLive = true → connectTimes env n w = w) :=
  ⟨connect_noop env w, fun n => connectTimes_length env n w,
    fun n h => connectTimes_of_live env n w h⟩

/-- Witness for C2: on the opened connection a further call changes nothing, and
five calls from the initial state construct exactly one socket. -/
theorem connect_idempotent_witness :
    World.connected.trackedLive = true ∧
    connectScriptSocket Env.default World.connected = .ok World.connected ∧
    connectTimes Env.default 5 World.connected = World.connected ∧
    (connectTimes Env.default 5 World.init).sockets.length = 1 :=
  ⟨by decide, (connect_idempotent Env.default World.connected).1 (by decide),
    (connect_idempotent Env.default World.connected).2.2 5 (by decide), by decide⟩

/-- C3: in every reachable state, a close event on the tracked socket clears the
tracked socket, sets the connection flag to false and leaves exactly one reconnect
timer pending, the one whose id is stored; and whenever a handle is stored,
`scheduleScriptReconnect()` returns the state it was called in. -/
theorem close_arms_one_timer :
    (∀ (env : Env) (w : World) (socket : Nat), Reachable env w →
      w.ch.scriptSocket = some socket →
      (step env w (.close socket)).ch.scriptSocket = none ∧
      (step env w (.close socket)).ch.scriptSocketConnected = false ∧
      (∃ t, (step env w (.close socket)).timers = [t] ∧
        (step env w (.close socket)).ch.scriptReconnectTimer = some t) ∧
      scheduleScriptReconnect (step env w (.close socket)) = step env w (.close socket)) ∧
    (∀ w : World, w.ch.scriptReconnectTimer ≠ none → scheduleScriptReconnect w = w) := by
  have second : ∀ w : World, w.ch.scriptReconnectTimer ≠ none →
      scheduleScriptReconnect w = w := by
    intro w hne
    unfold scheduleScriptReconnect
    cases ht : w.ch.scriptReconnectTimer with
    | none => exact absurd ht hne
    | some t => rfl
  refine ⟨?_, second⟩
  intro env w socket hr ht
  have hw := inv_reachable env w hr
  obtain ⟨r, hr1, hr2⟩ := hw.tracked_open socket ht
  have hstep : step env w (.close socket) =
      scheduleScriptReconnect { w.setReadyState socket .CLOSED with
        ch := { w.ch with scriptSocket := none, scriptSocketConnected := false } } := by
    have htr : (w.setReadyState socket .CLOSED).ch.scriptSocket = some socket := ht
    simp only [step, hr1]
    cases r
    case CLOSED => exact absurd rfl hr2
    all_goals simp only [onclose, htr, if_true]; rfl
  have hinv := inv_step env w (.close socket) hw
  rw [hstep] at hinv ⊢
  have hte := hw.timers_eq
  cases hh : w.ch.scriptReconnectTimer with
  | some t =>
    rw [hh] at hte
    have : scheduleScriptReconnect { w.setReadyState socket .CLOSED with
        ch := { w.ch with scriptSocket := none, scriptSocketConnected := false } } =
        { w.setReadyState socket .CLOSED with
        ch := { w.ch with scriptSocket := none, scriptSocketConnected := false } } :=
      second _ (by simp [hh])
    rw [this]
    refine ⟨rfl, rfl, ⟨t, ?_, hh⟩, this⟩
    exact hte
  | none =>
    rw [hh] at hte
    have hsched : scheduleScriptReconnect { w.setReadyState socket .CLOSED with
        ch := { w.ch with scriptSocket := none, scriptSocketConnected := false } } =
        { w.setReadyState socket .CLOSED with
          timers := w.timers ++ [w.nextTimerId]
          nextTimerId := w.nextTimerId + 1
          ch := { w.ch with scriptSocket := none, scriptSocketConnected := false,
                            scriptReconnectTimer := some w.nextTimerId } } := by
      simp [scheduleScriptReconnect, hh, World.setReadyState]
    rw [hsched]
    refine ⟨rfl, rfl, ⟨w.nextTimerId, ?_, rfl⟩, ?_⟩
    · simp [hte]
    · exact second _ (by simp)

/-- Witness for C3: closing the opened connection arms timer 1 and nothing else;
closing the tracked socket while timer 1 is already pending keeps that one. -/
theorem close_arms_one_timer_witness :
    (step Env.default World.connected (.close 0)).timers = [1] ∧
    (step Env.default World.reconnecting (.close 1)).timers = [1] ∧
    ((step Env.default World.connected (.close 0)).ch.scriptSocket = none ∧
      (step Env.default World.connected (.close 0)).ch.scriptSocketConnected = false ∧
      (∃ t, (step Env.default World.connected (.close 0)).timers = [t] ∧
        (step Env.default World.connected (.close 0)).ch.scriptReconnectTimer = some t) ∧
      scheduleScriptReconnect (step Env.default World.connected (.close 0)) =
        step Env.default World.connected (.close 0)) :=
  ⟨by decide, by decide,
    close_arms_one_timer.1 Env.default World.connected 0 connected_reachable (by decide)⟩

/-- C4: after `cleanupScriptSocket()` in a reachable state no socket is tracked,
no handle is stored, no timeout is pending and no constructed socket is live; a
close event fired afterwards by any socket, the old one included, leaves the
channel variables, the pending timeouts and the live sockets as they are, and the
`onclose` handler itself returns the state it was given. -/
theorem cleanup_leaves_nothing (env : Env) (w : World) (h : Reachable env w) :
    (cleanupScriptSocket w).ch.scriptSocket = none ∧
    (cleanupScriptSocket w).ch.scriptReconnectTimer = none ∧
    (cleanupScriptSocket w).timers = [] ∧
    (cleanupScriptSocket w).liveSockets = [] ∧
    (∀ socket,
      (step env (cleanupScriptSocket w) (.close socket)).ch = (cleanupScriptSocket w).ch ∧
      (step env (cleanupScriptSocket w) (.close socket)).timers = [] ∧
      (step env (cleanupScriptSocket w) (.close socket)).liveSockets = [] ∧
      onclose socket (cleanupScriptSocket w) = cleanupScriptSocket w) := by
  have hnone : ∀ v : World, (cleanupScriptSocket v).ch.scriptSocket = none ∧
      (cleanupScriptSocket v).ch.scriptReconnectTimer = none := by
    intro v
    unfold cleanupScriptSocket
    cases hs : v.ch.scriptSocket <;> cases ht : v.ch.scriptReconnectTimer <;>
      simp [hs, ht, World.closeSocket]
  have hempty : ∀ v : World, Inv v → v.ch.scriptSocket = none → v.liveSockets = [] := by
    intro v hv hn
    apply List.eq_nil_iff_forall_not_mem.2
    intro i hi
    have := hv.live_tracked i (List.mem_filter.1 hi).2
    rw [hn] at this
    exact absurd this (by simp)
  have hw := inv_cleanup w (inv_reachable env w h)
  obtain ⟨h1, h2⟩ := hnone w
  have h3 : (cleanupScriptSocket w).timers = [] := by
    rw [hw.timers_eq, h2]
    rfl
  have hclose : ∀ (socket : Nat) (v : World), v.ch.scriptSocket = none → onclose socket v = v := by
    intro socket v hv
    simp [onclose, hv]
  refine ⟨h1, h2, h3, hempty _ hw h1, ?_⟩
  intro socket
  have hstep : step env (cleanupScriptSocket w) (.close socket) = cleanupScriptSocket w ∨
      step env (cleanupScriptSocket w) (.close socket) =
        (cleanupScriptSocket w).setReadyState socket .CLOSED := by
    simp only [step]
    cases hr : (cleanupScriptSocket w).readyStateOf socket with
    | none => exact Or.inl rfl
    | some r =>
      cases r
      case CLOSED => exact Or.inl rfl
      all_goals exact Or.inr (hclose socket _ h1)
  have hinv := inv_step env _ (.close socket) hw
  rcases hstep with e | e
  · rw [e]
    exact ⟨rfl, h3, hempty _ hw h1, hclose socket _ h1⟩
  · rw [e] at hinv ⊢
    exact ⟨rfl, h3, hempty _ hinv h1, hclose socket _ h1⟩

/-- Witness for C4: cleanup of the reconnecting state (socket 1 connecting, timer 1
pending) leaves no pending timeout and no live socket, and the late close event
of socket 1 arms nothing. -/
theorem cleanup_leaves_nothing_witness :
    World.reconnecting.timers = [1] ∧ World.reconnecting.liveSockets = [1] ∧
    (cleanupScriptSocket World.reconnecting).timers = [] ∧
    (cleanupScriptSocket World.reconnecting).liveSockets = [] ∧
    (step Env.default (cleanupScriptSocket World.reconnecting) (.close 1)).timers = [] :=
  ⟨by decide, by decide,
    (cleanup_leaves_nothing Env.default World.reconnecting reconnecting_reachable).2.2.1,
    (cleanup_leaves_nothing Env.default World.reconnecting reconnecting_reachable).2.2.2.1,
    ((cleanup_leaves_nothing Env.default World.reconnecting reconnecting_reachable).2.2.2.2
      1).2.1⟩

/-- C5: for every prior state and every inbound object whose `type` is
`"script_upload_result"`, the message handler returns normally; the preview becomes
`image_data_url` when that field is present and truthy (for a string: non-empty)
and keeps its prior value otherwise; the detection flag becomes the boolean
coercion of `fire_detected`, false when absent; the result description becomes
`result_text` when truthy and the empty string otherwise (absent or empty); last
error becomes the empty string; the connection flag, the tracked socket and the
timer handle are unchanged; and on an open socket the message event stores exactly
this channel. -/
theorem onmessage_result (env : Env) (w : World) (socket : Nat)
    (fields : List (String × JSValue))
    (ht : fields.lookup "type" = some (.string "script_upload_result")) :
    ∃ c1, onmessage w.ch (some (.object fields)) = .ok c1 ∧
      c1.scriptPreviewUrl =
        (match fields.lookup "image_data_url" with
          | some v => if v.truthy then v else w.ch.scriptPreviewUrl
          | none => w.ch.scriptPreviewUrl) ∧
      c1.scriptFireDetected =
        (match fields.lookup "fire_detected" with
          | some v => v.truthy
          | none => false) ∧
      c1.scriptResultText =
        (match fields.lookup "result_text" with
          | some v => if v.truthy then v else .string ""
          | none => .string "") ∧
      c1.scriptErrorText = "" ∧
      c1.scriptSocketConnected = w.ch.scriptSocketConnected ∧
      c1.scriptSocket = w.ch.scriptSocket ∧
      c1.scriptReconnectTimer = w.ch.scriptReconnectTimer ∧
      (∀ s, (JSValue.string s).truthy = true ↔ s ≠ "") ∧
      (∀ s, fields.lookup "image_data_url" = some (.string s) → s ≠ "" →
        c1.scriptPreviewUrl = .string s) ∧
      (fields.lookup "image_data_url" = none ∨
          fields.lookup "image_data_url" = some (.string "") →
        c1.scriptPreviewUrl = w.ch.scriptPreviewUrl) ∧
      (∀ s, fields.lookup "result_text" = some (.string s) → c1.scriptResultText = .string s) ∧
      (fields.lookup "result_text" = none → c1.scriptResultText = .string "") ∧
      (w.readyStateOf socket = some .OPEN →
        step env w (.message socket (some (.object fields))) = { w with ch := c1 }) := by
  refine ⟨_, onmessage_accepted w.ch fields ht, ?_, ?_, ?_, ?_, ?_, ?_, ?_, ?_, ?_, ?_, ?_, ?_, ?_⟩
  · cases fields.lookup "image_data_url" with
    | none => simp [JSValue.truthy]
    | some v => by_cases hv : v.truthy = true <;> simp [hv]
  · cases fields.lookup "fire_detected" with
    | none => simp [JSValue.truthy]
    | some v => simp
  · cases fields.lookup "result_text" with
    | none => simp [JSValue.truthy, JSValue.or]
    | some v => simp [JSValue.or]
  · rfl
  · split <;> rfl
  · split <;> rfl
  · split <;> rfl
  · intro s
    simp [JSValue.truthy]
  · intro s hs hne
    simp [hs, JSValue.truthy, hne]
  · rintro (hs | hs) <;> simp [hs, JSValue.truthy]
  · intro s hs
    by_cases he : s = ""
    · simp [hs, JSValue.or, JSValue.truthy, he]
    · simp [hs, JSValue.or, JSValue.truthy, he]
  · intro hs
    simp [hs, JSValue.or, JSValue.truthy]
  · intro ho
    simp only [step, ho, if_true, onmessage_accepted w.ch fields ht]

/-- Witness for C5: on the connection showing an earlier result, the message
`{type: "script_upload_result", fire_detected: 1, result_text: "x"}` keeps the
preview, makes the flag true and the description `"x"`. -/
theorem onmessage_result_witness :
    World.showing.ch.scriptPreviewUrl = .string "data:image/png;base64,AAAA" ∧
    ∃ c1, onmessage World.showing.ch (some (.object sampleResult)) = .ok c1 ∧
      c1.scriptPreviewUrl = .string "data:image/png;base64,AAAA" ∧
      c1.scriptFireDetected = true ∧
      c1.scriptResultText = .string "x" ∧
      c1.scriptErrorText = "" := by
  refine ⟨rfl, ?_⟩
  obtain ⟨c1, h1, h2, h3, h4, h5, _⟩ :=
    onmessage_result Env.default World.showing 0 sampleResult rfl
  exact ⟨c1, h1, h2.trans rfl, h3.trans (by decide), h4.trans rfl, h5⟩

/-- C6: for every prior state and every inbound object whose `type` is absent or
is not the string `"script_upload_result"`, the message handler returns the
channel it was given, and the message event leaves the whole state unchanged. -/
theorem onmessage_other_tag (env : Env) (w : World) (socket : Nat)
    (fields : List (String × JSValue))
    (ht : fields.lookup "type" ≠ some (.string "script_upload_result")) :
    onmessage w.ch (some (.object fields)) = .ok w.ch ∧
    step env w (.message socket (some (.object fields))) = w := by
  have h := onmessage_ignored w.ch (.object fields) _ rfl (strictNe_of_lookup fields ht)
  refine ⟨h, ?_⟩
  simp only [step, h]
  split <;> rfl

/-- Witness for C6: the message `{type: "other"}` on the connection showing an
earlier result changes nothing. -/
theorem onmessage_other_tag_witness :
    onmessage World.showing.ch (some (.object otherMessage)) = .ok World.showing.ch ∧
    step Env.default World.showing (.message 0 (some (.object otherMessage))) = World.showing :=
  onmessage_other_tag Env.default World.showing 0 otherMessage (by
    intro h
    have h2 : JSValue.string "other" = JSValue.string "script_upload_result" :=
      Option.some.inj h
    exact absurd (JSValue.string.inj h2) (by decide))

/-- C7: for every prior state, a payload that does not parse as JSON makes the
message handler return normally with last error set to the fixed message and
every other channel variable unchanged; on an open socket the message event
stores exactly that channel, and on any socket it leaves the preview, the result
description, the detection flag, the connection flag, the tracked socket, the
timer handle, the sockets and the pending timeouts unchanged. -/
theorem onmessage_parse_failure (env : Env) (w : World) (socket : Nat) :
    onmessage w.ch none = .ok { w.ch with scriptErrorText := "脚本模块消息解析失败" } ∧
    (w.readyStateOf socket = some .OPEN →
      step env w (.message socket none) =
        { w with ch := { w.ch with scriptErrorText := "脚本模块消息解析失败" } }) ∧
    (step env w (.message socket none)).ch.scriptPreviewUrl = w.ch.scriptPreviewUrl ∧
    (step env w (.message socket none)).ch.scriptResultText = w.ch.scriptResultText ∧
    (step env w (.message socket none)).ch.scriptFireDetected = w.ch.scriptFireDetected ∧
    (step env w (.message socket none)).ch.scriptSocketConnected = w.ch.scriptSocketConnected ∧
    (step env w (.message socket none)).ch.scriptSocket = w.ch.scriptSocket ∧
    (step env w (.message socket none)).ch.scriptReconnectTimer = w.ch.scriptReconnectTimer ∧
    (step env w (.message socket none)).sockets = w.sockets ∧
    (step env w (.message socket none)).timers = w.timers := by
  refine ⟨onmessage_failed w.ch, ?_, ?_⟩
  · intro ho
    simp only [step, ho, if_true, onmessage_failed]
  · simp only [step, onmessage_failed]
    split <;> exact ⟨rfl, rfl, rfl, rfl, rfl, rfl, rfl, rfl⟩

/-- Witness for C7: an unparsable payload on the connection showing an earlier
result sets last error and keeps the preview. -/
theorem onmessage_parse_failure_witness :
    (step Env.default World.showing (.message 0 none)).ch.scriptErrorText =
      "脚本模块消息解析失败" ∧
    (step Env.default World.showing (.message 0 none)).ch.scriptPreviewUrl =
      .string "data:image/png;base64,AAAA" :=
  ⟨congrArg (fun v : World => v.ch.scriptErrorText)
      ((onmessage_parse_failure Env.default World.showing 0).2.1 (by decide)),
    ((onmessage_parse_failure Env.default World.showing 0).2.2.1).trans rfl⟩

/-- C8: for every string, `getWsBaseUrl` maps `"https://" ++ r` to `"wss://" ++ r`,
maps `"http://" ++ r` to `"ws://" ++ r`, and returns every string that starts with
neither prefix unchanged. -/
theorem getWsBaseUrl_spec (s : String) :
    (∀ r : String, s = "https://" ++ r → getWsBaseUrl s = "wss://" ++ r) ∧
    (∀ r : String, s = "http://" ++ r → getWsBaseUrl s = "ws://" ++ r) ∧
    ((∀ r : String, s ≠ "https://" ++ r) → (∀ r : String, s ≠ "http://" ++ r) →
      getWsBaseUrl s = s) := by
  refine ⟨?_, ?_, ?_⟩
  · rintro r rfl
    have h : startsWith ("https://" ++ r) "https://" = true := (startsWith_iff _ _).2 ⟨r, rfl⟩
    simp only [getWsBaseUrl, h, if_true, slice_append]
  · rintro r rfl
    have h : startsWith ("http://" ++ r) "http://" = true := (startsWith_iff _ _).2 ⟨r, rfl⟩
    have h2 : startsWith ("http://" ++ r) "https://" = false := by
      simp [startsWith, List.isPrefixOf]
    simp only [getWsBaseUrl, h, h2, if_true, slice_append]
    simp
  · intro h1 h2
    simp [getWsBaseUrl, startsWith_eq_false s _ h1, startsWith_eq_false s _ h2]

/-- Witness for C8: the three examples of the specification, and an upper-case
scheme, which is not rewritten. -/
theorem getWsBaseUrl_spec_witness :
    getWsBaseUrl "https://h:1" = "wss://h:1" ∧
    getWsBaseUrl "http://h:1" = "ws://h:1" ∧
    getWsBaseUrl "ftp://h" = "ftp://h" ∧
    getWsBaseUrl "HTTP://h" = "HTTP://h" :=
  ⟨(getWsBaseUrl_spec "https://h:1").1 "h:1" (by decide),
    (getWsBaseUrl_spec "http://h:1").2.1 "h:1" (by decide),
    (getWsBaseUrl_spec "ftp://h").2.2
      (fun r h => by
        have h2 := (startsWith_iff "ftp://h" "https://").2 ⟨r, h⟩
        exact absurd h2 (by decide))
      (fun r h => by
        have h2 := (startsWith_iff "ftp://h" "http://").2 ⟨r, h⟩
        exact absurd h2 (by decide)),
    (getWsBaseUrl_spec "HTTP://h").2.2
      (fun r h => by
        have h2 := (startsWith_iff "HTTP://h" "https://").2 ⟨r, h⟩
        exact absurd h2 (by decide))
      (fun r h => by
        have h2 := (startsWith_iff "HTTP://h" "http://").2 ⟨r, h⟩
        exact absurd h2 (by decide))⟩

/-- C9, as stated, fails: last error belongs to the Latest Result, and a message
that fails to parse sets it while an open event clears it. On the opened
connection an unparsable message changes the Latest Result, and so does the open
event of the second socket after an unparsable message and a reconnect. -/
theorem latest_result_changed_by_other_steps :
    (step Env.default World.connected (.message 0 none)).ch.latestResult ≠
      World.connected.ch.latestResult ∧
    (step Env.default World.retrying (.opened 1)).ch.latestResult ≠
      World.retrying.ch.latestResult := by
  constructor
  · intro h
    have h2 := congrArg (fun x : JSValue × Bool × JSValue × String => x.2.2.2) h
    exact absurd h2 (by decide)
  · intro h
    have h2 := congrArg (fun x : JSValue × Bool × JSValue × String => x.2.2.2) h
    exact absurd h2 (by decide)

/-- C9, amended: for every state, `connectScriptSocket()`, `cleanupScriptSocket()`, a
timer firing, a close event, an error event and a message that parses to a value
with a readable `type` other than `"script_upload_result"` keep all four fields of
the Latest Result; an open event and a message that fails to parse keep the
preview, the detection flag and the result description, and set last error to
the empty string and to the fixed message respectively; a message whose `type`
cannot be read keeps the preview, the detection flag and the result description
as well, so these three change on an accepted message only. -/
theorem latest_result_frame (env : Env) (w : World) :
    (step env w .connect).ch.latestResult = w.ch.latestResult ∧
    (step env w .cleanup).ch.latestResult = w.ch.latestResult ∧
    (∀ id, (step env w (.timer id)).ch.latestResult = w.ch.latestResult) ∧
    (∀ socket, (step env w (.close socket)).ch.latestResult = w.ch.latestResult) ∧
    (∀ socket, (step env w (.error socket)).ch.latestResult = w.ch.latestResult) ∧
    (∀ socket payload t, payload.getProp "type" = .ok t →
      t.strictNeString "script_upload_result" = true →
      (step env w (.message socket (some payload))).ch.latestResult = w.ch.latestResult) ∧
    (∀ socket, (step env w (.opened socket)).ch.lastKnown = w.ch.lastKnown ∧
      (w.readyStateOf socket = some .CONNECTING →
        (step env w (.opened socket)).ch.scriptErrorText = "")) ∧
    (∀ socket, (step env w (.message socket none)).ch.lastKnown = w.ch.lastKnown ∧
      (w.readyStateOf socket = some .OPEN →
        (step env w (.message socket none)).ch.scriptErrorText = "脚本模块消息解析失败")) ∧
    (∀ socket payload e, payload.getProp "type" = .error e →
      (step env w (.message socket (some payload))).ch.lastKnown = w.ch.lastKnown) := by
  obtain ⟨h1, h2, h3, h4, h5⟩ := step_latestResult env w
  refine ⟨h1, h2, h3, h4, h5, ?_, ?_, ?_, ?_⟩
  · intro socket payload t hp ht
    simp only [step, onmessage_ignored w.ch payload t hp ht]
    split <;> rfl
  · intro socket
    refine ⟨step_opened_lastKnown env w socket, ?_⟩
    intro hc
    simp [step, hc, onopen]
  · intro socket
    constructor
    · simp only [step, onmessage_failed]
      split <;> rfl
    · intro ho
      simp [step, ho, onmessage_failed]
  · intro socket payload e hp
    simp only [step, onmessage, onmessageTry_throws w.ch payload e hp]
    split <;> rfl

/-- Witness for C9, amended: on the connection showing an earlier result the
message `{type: "other"}` keeps the Latest Result, and an unparsable message
keeps the preview, flag and description while setting last error. -/
theorem latest_result_frame_witness :
    (step Env.default World.showing (.message 0 (some (.object otherMessage)))).ch.latestResult =
      World.showing.ch.latestResult ∧
    (step Env.default World.showing (.message 0 none)).ch.lastKnown =
      World.showing.ch.lastKnown ∧
    (step Env.default World.showing (.message 0 none)).ch.scriptErrorText =
      "脚本模块消息解析失败" :=
  ⟨(latest_result_frame Env.default World.showing).2.2.2.2.2.1 0 (.object otherMessage)
      (.string "other") rfl (by decide),
    ((latest_result_frame Env.default World.showing).2.2.2.2.2.2.2.1 0).1,
    ((latest_result_frame Env.default World.showing).2.2.2.2.2.2.2.1 0).2 (by decide)⟩

/-- C10: for every state, a close event, an error event, an open event, a timer
firing, `connectScriptSocket()` and `cleanupScriptSocket()` each leave the preview, the
detection flag and the result description unchanged, so that among the five refs
only the connection flag and last error can differ after such a step. -/
theorem last_known_survives (env : Env) (w : World) :
    (∀ socket, (step env w (.close socket)).ch.lastKnown = w.ch.lastKnown) ∧
    (∀ socket, (step env w (.error socket)).ch.lastKnown = w.ch.lastKnown) ∧
    (∀ socket, (step env w (.opened socket)).ch.lastKnown = w.ch.lastKnown) ∧
    (∀ id, (step env w (.timer id)).ch.lastKnown = w.ch.lastKnown) ∧
    (step env w .connect).ch.lastKnown = w.ch.lastKnown ∧
    (step env w .cleanup).ch.lastKnown = w.ch.lastKnown := by
  obtain ⟨h1, h2, h3, h4, h5⟩ := step_latestResult env w
  exact ⟨fun socket => lastKnown_of_latestResult _ _ (h4 socket),
    fun socket => lastKnown_of_latestResult _ _ (h5 socket),
    step_opened_lastKnown env w,
    fun id => lastKnown_of_latestResult _ _ (h3 id),
    lastKnown_of_latestResult _ _ h1,
    lastKnown_of_latestResult _ _ h2⟩

/-! ## Retrying: helper lemmas -/

theorem connect_tracks (env : Env) (w : World) (hacc : env.urlAccepted env.endpoint = true) :
    ∃ w1, connectScriptSocket env w = .ok w1 ∧ w1.ch.scriptSocket ≠ none := by
  by_cases hl : w.trackedLive = true
  · refine ⟨w, connect_noop env w hl, ?_⟩
    obtain ⟨i, hi, _⟩ := (trackedLive_iff w).1 hl
    simp [hi]
  · have hacc2 : env.urlAccepted
        (getWsBaseUrl env.apiBase ++ "/ws/script/latest-upload-image") = true := hacc
    have hl2 : w.trackedLive = false := by simpa using hl
    refine ⟨_, by simp only [connectScriptSocket, hl2, WebSocket.construct, hacc2]; rfl, ?_⟩
    simp

theorem step_connect_tracks (env : Env) (w : World)
    (hacc : env.urlAccepted env.endpoint = true) :
    (step env w .connect).ch.scriptSocket ≠ none := by
  obtain ⟨w1, h1, h2⟩ := connect_tracks env w hacc
  simp only [step, h1]
  exact h2

theorem schedule_stores (w : World) :
    (scheduleScriptReconnect w).ch.scriptReconnectTimer ≠ none := by
  unfold scheduleScriptReconnect
  cases h : w.ch.scriptReconnectTimer <;> simp [h]

theorem step_keeps_trying (env : Env) (w : World) (e : Event)
    (hacc : env.urlAccepted env.endpoint = true) (he : e ≠ .cleanup)
    (h : w.ch.scriptSocket ≠ none ∨ w.ch.scriptReconnectTimer ≠ none) :
    (step env w e).ch.scriptSocket ≠ none ∨ (step env w e).ch.scriptReconnectTimer ≠ none := by
  cases e with
  | connect => exact Or.inl (step_connect_tracks env w hacc)
  | cleanup => exact absurd rfl he
  | timer id =>
    simp only [step]
    split
    · left
      unfold reconnectCallback
      obtain ⟨w1, h1, h2⟩ := connect_tracks env
        { w with
          timers := w.timers.erase id
          ch := { w.ch with scriptReconnectTimer := none } } hacc
      simp only [h1]
      exact h2
    · exact h
  | opened socket =>
    simp only [step]
    split
    · exact h
    · exact h
  | message socket parsed =>
    simp only [step]
    split
    · obtain ⟨c1, h1, h2, h3, _⟩ := onmessage_frame w.ch parsed
      rw [h1]
      simpa [h2, h3] using h
    · exact h
  | error socket =>
    simp only [step]
    split
    · exact h
    · exact h
  | close socket =>
    simp only [step]
    have key : (onclose socket (w.setReadyState socket .CLOSED)).ch.scriptSocket ≠ none ∨
        (onclose socket (w.setReadyState socket .CLOSED)).ch.scriptReconnectTimer ≠ none := by
      unfold onclose
      split
      · exact Or.inr (schedule_stores _)
      · exact h
    split <;> first | exact h | exact key

theorem run_keeps_trying (env : Env) (events : List Event) (w : World)
    (hacc : env.urlAccepted env.endpoint = true) (hno : ∀ e ∈ events, e ≠ Event.cleanup)
    (h : w.ch.scriptSocket ≠ none ∨ w.ch.scriptReconnectTimer ≠ none) :
    (run env w events).ch.scriptSocket ≠ none ∨
      (run env w events).ch.scriptReconnectTimer ≠ none := by
  induction events generalizing w with
  | nil => exact h
  | cons e es ih =>
    exact ih (step env w e) (fun x hx => hno x (List.mem_cons_of_mem _ hx))
      (step_keeps_trying env w e hacc (hno e (List.mem_cons_self _ _)) h)

theorem close_tracked_of_inv (env : Env) (w : World) (socket : Nat) (hw : Inv w)
    (ht : w.ch.scriptSocket = some socket) :
    (step env w (.close socket)).ch.scriptSocket = none ∧
    (step env w (.close socket)).ch.scriptSocketConnected = false ∧
    ∃ t, (step env w (.close socket)).timers = [t] ∧
      (step env w (.close socket)).ch.scriptReconnectTimer = some t := by
  obtain ⟨r, hr1, hr2⟩ := hw.tracked_open socket ht
  have htr : (w.setReadyState socket .CLOSED).ch.scriptSocket = some socket := ht
  have hstep : step env w (.close socket) =
      scheduleScriptReconnect { w.setReadyState socket .CLOSED with
        ch := { w.ch with scriptSocket := none, scriptSocketConnected := false } } := by
    simp only [step, hr1]
    cases r
    case CLOSED => exact absurd rfl hr2
    all_goals simp only [onclose, htr, if_true]; rfl
  have hinv := inv_step env w (.close socket) hw
  have hsome := schedule_stores { w.setReadyState socket .CLOSED with
    ch := { w.ch with scriptSocket := none, scriptSocketConnected := false } }
  rw [← hstep] at hsome
  have h1 : (step env w (.close socket)).ch.scriptSocket = none := by
    rw [hstep]
    unfold scheduleScriptReconnect
    split <;> rfl
  have h2 : (step env w (.close socket)).ch.scriptSocketConnected = false := by
    rw [hstep]
    unfold scheduleScriptReconnect
    split <;> rfl
  refine ⟨h1, h2, ?_⟩
  cases hh : (step env w (.close socket)).ch.scriptReconnectTimer with
  | none => exact absurd hh hsome
  | some t =>
    refine ⟨t, ?_, rfl⟩
    rw [hinv.timers_eq, hh]
    rfl

theorem step_error_frame (env : Env) (w : World) (socket : Nat) :
    (step env w (.error socket)).ch = w.ch ∧
    (step env w (.error socket)).timers = w.timers ∧
    (step env w (.error socket)).nextTimerId = w.nextTimerId := by
  simp only [step]
  split <;> exact ⟨rfl, rfl, rfl⟩

/-! ## Formatting helpers: helper lemmas -/

theorem dropWhile_rdropWhile_dropWhile (p : Char → Bool) (l : List Char) :
    ((l.dropWhile p).rdropWhile p).dropWhile p = (l.dropWhile p).rdropWhile p := by
  have hm : (l.dropWhile p).dropWhile p = l.dropWhile p := List.dropWhile_idempotent p l
  generalize l.dropWhile p = m at hm
  cases m with
  | nil => simp
  | cons x rest =>
    have hx : ¬ p x = true := by
      have := List.dropWhile_eq_self_iff.1 hm (by simp)
      simpa using this
    obtain ⟨t, ht⟩ := List.rdropWhile_prefix p (x :: rest)
    cases hr : List.rdropWhile p (x :: rest) with
    | nil => simp
    | cons y ys =>
      rw [hr] at ht
      have hy : y = x := by
        simp at ht
        exact ht.1
      subst hy
      simp [List.dropWhile, hx]

theorem trim_trim (s : String) : trim (trim s) = trim s := by
  unfold trim
  apply String.ext
  show ((((s.data.dropWhile isTrimmed).rdropWhile isTrimmed).dropWhile isTrimmed).rdropWhile
    isTrimmed) = (s.data.dropWhile isTrimmed).rdropWhile isTrimmed
  rw [dropWhile_rdropWhile_dropWhile, List.rdropWhile_idempotent]

theorem statusText_cases (status : Option String) :
    getMonitorStatusText status = "发生火灾" ∨ getMonitorStatusText status = "无火灾" ∨
    getMonitorStatusText status = "-" ∨
    (getMonitorStatusText status = trim (status.getD "") ∧
      ¬ (toLowerCase (trim (status.getD "")) = "fire" ∨ trim (status.getD "") = "发生火灾") ∧
      ¬ (toLowerCase (trim (status.getD "")) = "normal" ∨
          toLowerCase (trim (status.getD "")) = "no_fire" ∨
          toLowerCase (trim (status.getD "")) = "nofire" ∨
          trim (status.getD "") = "无火灾") ∧
      trim (status.getD "") ≠ "") := by
  unfold getMonitorStatusText
  simp only
  by_cases h1 : toLowerCase (trim (status.getD "")) = "fire" ∨ trim (status.getD "") = "发生火灾"
  · exact Or.inl (if_pos h1)
  · rw [if_neg h1]
    by_cases h2 : toLowerCase (trim (status.getD "")) = "normal" ∨
        toLowerCase (trim (status.getD "")) = "no_fire" ∨
        toLowerCase (trim (status.getD "")) = "nofire" ∨
        trim (status.getD "") = "无火灾"
    · exact Or.inr (Or.inl (if_pos h2))
    · rw [if_neg h2]
      by_cases h3 : trim (status.getD "") ≠ ""
      · exact Or.inr (Or.inr (Or.inr ⟨if_pos h3, h1, h2, h3⟩))
      · exact Or.inr (Or.inr (Or.inl (if_neg h3)))

theorem statusText_idem (status : Option String) :
    getMonitorStatusText (some (getMonitorStatusText status)) = getMonitorStatusText status := by
  rcases statusText_cases status with h | h | h | ⟨h, h1, h2, h3⟩
  · rw [h]
    decide
  · rw [h]
    decide
  · rw [h]
    decide
  · rw [h]
    unfold getMonitorStatusText
    simp only [Option.getD_some, trim_trim]
    rw [if_neg h1, if_neg h2, if_pos h3]

theorem statusText_ne_empty (status : Option String) : getMonitorStatusText status ≠ "" := by
  rcases statusText_cases status with h | h | h | ⟨h, _, _, h3⟩
  · rw [h]
    decide
  · rw [h]
    decide
  · rw [h]
    decide
  · rw [h]
    exact h3

/-! ## The claims, continued -/

/-- C11, as stated, fails: with `apiBase` set to `ftp://h` the endpoint keeps the
`ftp` scheme, the `WebSocket` constructor throws, and right after the call of
`connectScriptSocket()` no socket is tracked and no timer is pending. -/
theorem gives_up_on_rejected_endpoint :
    Env.passedThrough.endpoint = "ftp://h/ws/script/latest-upload-image" ∧
    connectScriptSocket Env.passedThrough World.init = .error .SyntaxError ∧
    (step Env.passedThrough World.init .connect).ch.scriptSocket = none ∧
    (step Env.passedThrough World.init .connect).ch.scriptReconnectTimer = none ∧
    (step Env.passedThrough World.init .connect).timers = [] := by
  refine ⟨by decide, rfl, by decide, by decide, by decide⟩

/-- C11, amended: when the `WebSocket` constructor accepts the endpoint URL, in
every state reached from a reachable state by a call of `connectScriptSocket()`
followed by any events other than `cleanupScriptSocket()`, a socket is tracked or
a reconnect timer is stored and pending. -/
theorem keeps_trying (env : Env) (w : World) (events : List Event)
    (hacc : env.urlAccepted env.endpoint = true) (hr : Reachable env w)
    (hno : ∀ e ∈ events, e ≠ Event.cleanup) :
    (run env (step env w .connect) events).ch.scriptSocket ≠ none ∨
    ((run env (step env w .connect) events).ch.scriptReconnectTimer ≠ none ∧
      (run env (step env w .connect) events).timers ≠ []) := by
  have hinv : Inv (run env (step env w .connect) events) :=
    inv_reachable env _ (reachable_run env _ events (Reachable.step w .connect hr))
  rcases run_keeps_trying env events (step env w .connect) hacc hno
      (Or.inl (step_connect_tracks env w hacc)) with h | h
  · exact Or.inl h
  · refine Or.inr ⟨h, ?_⟩
    rw [hinv.timers_eq]
    cases ht : (run env (step env w .connect) events).ch.scriptReconnectTimer with
    | none => exact absurd ht h
    | some t => simp

/-- Witness for C11, amended: with the default configuration, after the first
socket is lost, the retry fails and the second socket is lost as well, no socket
is tracked and timer 2 is pending. -/
theorem keeps_trying_witness :
    Env.default.urlAccepted Env.default.endpoint = true ∧
    (run Env.default (step Env.default World.init .connect)
      [.opened 0, .close 0, .timer 1, .error 1, .close 1]).ch.scriptSocket = none ∧
    (run Env.default (step Env.default World.init .connect)
      [.opened 0, .close 0, .timer 1, .error 1, .close 1]).timers = [2] ∧
    ((run Env.default (step Env.default World.init .connect)
        [.opened 0, .close 0, .timer 1, .error 1, .close 1]).ch.scriptSocket ≠ none ∨
      ((run Env.default (step Env.default World.init .connect)
          [.opened 0, .close 0, .timer 1, .error 1, .close 1]).ch.scriptReconnectTimer ≠ none ∧
        (run Env.default (step Env.default World.init .connect)
          [.opened 0, .close 0, .timer 1, .error 1, .close 1]).timers ≠ [])) :=
  ⟨by decide, by decide, by decide,
    keeps_trying Env.default World.init [.opened 0, .close 0, .timer 1, .error 1, .close 1]
      (by decide) Reachable.init (by simp)⟩

/-- C12: for every state, a second `cleanupScriptSocket()` returns the state the
first one produced, so it closes no socket and cancels no timeout. -/
theorem cleanup_idempotent (w : World) :
    cleanupScriptSocket (cleanupScriptSocket w) = cleanupScriptSocket w ∧
    (cleanupScriptSocket (cleanupScriptSocket w)).sockets = (cleanupScriptSocket w).sockets ∧
    (cleanupScriptSocket (cleanupScriptSocket w)).timers = (cleanupScriptSocket w).timers := by
  have hfix : ∀ v : World, v.ch.scriptSocket = none → v.ch.scriptReconnectTimer = none →
      cleanupScriptSocket v = v := by
    intro v h1 h2
    simp [cleanupScriptSocket, h1, h2]
  have hnone : (cleanupScriptSocket w).ch.scriptSocket = none ∧
      (cleanupScriptSocket w).ch.scriptReconnectTimer = none := by
    unfold cleanupScriptSocket
    cases hs : w.ch.scriptSocket <;> cases ht : w.ch.scriptReconnectTimer <;>
      simp [hs, ht, World.closeSocket]
  have h := hfix _ hnone.1 hnone.2
  exact ⟨h, by rw [h], by rw [h]⟩

/-- C13, as stated, fails: on a failure page that is not JSON,
`detectManualFireRequest` rejects with the `SyntaxError` of `response.json()`, not
with an `Error` carrying its default message, while `createMonitorRecord` on the
same response does reject with an `Error`; on an ok response whose body is the
number `5`, `fetchMonitorRecords` returns an empty array, not the decoded body;
and on a failure whose body is `null`, `createMonitorRecord` rejects with a
`TypeError`. -/
theorem request_functions_diverge :
    detectManualFireRequest Response.plainFailure = .error (.thrown .SyntaxError) ∧
    detectManualFireRequest Response.plainFailure ≠
      .error (.Error (.string "检测失败，请稍后重试。")) ∧
    createMonitorRecord Response.plainFailure =
      .error (.Error (.string "Internal Server Error")) ∧
    fetchMonitorRecords Response.numberSuccess = .ok (.array []) ∧
    parseJsonResponse Response.numberSuccess = .number (.finite 5) ∧
    createMonitorRecord Response.nullFailure = .error (.thrown .TypeError) := by
  refine ⟨rfl, ?_, rfl, rfl, rfl, rfl⟩
  intro h
  have h2 : detectManualFireRequest Response.plainFailure =
      .error (.thrown .SyntaxError) := rfl
  rw [h2] at h
  cases h

/-- C13, amended: `parseJsonResponse` turns an empty body into the empty object, a
non-empty body that is not JSON into the object with `detail` set to the body
text, and decodes every other body. On a response that is not ok whose
normalized body has a readable `detail` (the body is not `null`), each of
`fetchMonitorRecords`, `createMonitorRecord`, `updateMonitorRecord` and
`deleteMonitorRecordRequest` rejects with an `Error` built from `detail` when it is
truthy (for a string: non-empty) and from its own default message otherwise. On
an ok response the last three return the normalized body, and
`fetchMonitorRecords` returns it when it is an array and the empty array
otherwise. `detectManualFireRequest`, on a body that is JSON, returns the decoded
body when the response is ok, and when it is not ok and `detail` is readable
rejects with an `Error` built from `detail` or its default message. -/
theorem request_functions_normalize (response : Response) :
    (response.text = "" → parseJsonResponse response = .object []) ∧
    (response.text ≠ "" → response.json = none →
      parseJsonResponse response = .object [("detail", .string response.text)]) ∧
    (response.text ≠ "" → ∀ v, response.json = some v → parseJsonResponse response = v) ∧
    (∀ detail, response.ok = false →
      (parseJsonResponse response).getProp "detail" = .ok detail →
      fetchMonitorRecords response =
        .error (.Error (detail.or (.string "获取数据监控列表失败"))) ∧
      createMonitorRecord response = .error (.Error (detail.or (.string "新增失败"))) ∧
      updateMonitorRecord response = .error (.Error (detail.or (.string "更新失败"))) ∧
      deleteMonitorRecordRequest response =
        .error (.Error (detail.or (.string "删除失败")))) ∧
    (response.ok = true →
      createMonitorRecord response = .ok (parseJsonResponse response) ∧
      updateMonitorRecord response = .ok (parseJsonResponse response) ∧
      deleteMonitorRecordRequest response = .ok (parseJsonResponse response) ∧
      (∀ xs, parseJsonResponse response = .array xs →
        fetchMonitorRecords response = .ok (.array xs)) ∧
      ((∀ xs, parseJsonResponse response ≠ .array xs) →
        fetchMonitorRecords response = .ok (.array []))) ∧
    (∀ data, response.json = some data →
      (response.ok = true → detectManualFireRequest response = .ok data) ∧
      (∀ detail, response.ok = false → data.getProp "detail" = .ok detail →
        detectManualFireRequest response =
          .error (.Error (detail.or (.string "检测失败，请稍后重试。"))))) ∧
    (∀ fallback : JSValue,
      (∀ s, s ≠ "" → (JSValue.string s).or fallback = .string s) ∧
      (JSValue.string "").or fallback = fallback ∧
      JSValue.undefined.or fallback = fallback) := by
  refine ⟨?_, ?_, ?_, ?_, ?_, ?_, ?_⟩
  · intro h
    simp [parseJsonResponse, h]
  · intro h hj
    simp [parseJsonResponse, h, hj]
  · intro h v hj
    simp [parseJsonResponse, h, hj]
  · intro detail hok hd
    simp [fetchMonitorRecords, createMonitorRecord, updateMonitorRecord,
      deleteMonitorRecordRequest, readDetail, hok, hd, bind, Except.bind, throw, throwThe,
      MonadExceptOf.throw]
  · intro hok
    refine ⟨?_, ?_, ?_, ?_, ?_⟩
    · simp [createMonitorRecord, hok, pure, Except.pure, bind, Except.bind]
    · simp [updateMonitorRecord, hok, pure, Except.pure, bind, Except.bind]
    · simp [deleteMonitorRecordRequest, hok, pure, Except.pure, bind, Except.bind]
    · intro xs hx
      simp [fetchMonitorRecords, hok, hx, pure, Except.pure, bind, Except.bind]
    · intro hx
      simp only [fetchMonitorRecords, hok, pure, Except.pure, bind, Except.bind]
      cases hp : parseJsonResponse response with
      | array xs => exact absurd hp (hx xs)
      | _ => simp
  · intro data hj
    constructor
    · intro hok
      simp [detectManualFireRequest, Response.parseJson, hj, hok, bind, Except.bind, pure,
        Except.pure]
    · intro detail hok hd
      simp [detectManualFireRequest, Response.parseJson, readDetail, hj, hok, hd, bind,
        Except.bind, throw, throwThe, MonadExceptOf.throw]
  · intro fallback
    refine ⟨?_, ?_, ?_⟩
    · intro s hs
      simp [JSValue.or, JSValue.truthy, hs]
    · simp [JSValue.or, JSValue.truthy]
    · simp [JSValue.or, JSValue.truthy]

/-- Witness for C13, amended: a failure with `detail` set to `"bad file"` rejects
with that message, a failure page that is not JSON rejects with the page text, a
failure with an empty body rejects with the default message, and an ok response
with the number `5` as body is returned as it is by `deleteMonitorRecordRequest`. -/
theorem request_functions_normalize_witness :
    createMonitorRecord Response.detailFailure = .error (.Error (.string "bad file")) ∧
    detectManualFireRequest Response.detailFailure = .error (.Error (.string "bad file")) ∧
    updateMonitorRecord Response.plainFailure =
      .error (.Error (.string "Internal Server Error")) ∧
    fetchMonitorRecords { ok := false, text := "", json := none } =
      .error (.Error (.string "获取数据监控列表失败")) ∧
    deleteMonitorRecordRequest Response.numberSuccess = .ok (.number (.finite 5)) :=
  ⟨((request_functions_normalize Response.detailFailure).2.2.2.1
      (.string "bad file") rfl rfl).2.1,
    ((request_functions_normalize Response.detailFailure).2.2.2.2.2.1
      (.object [("detail", .string "bad file")]) rfl).2 (.string "bad file") rfl rfl,
    ((request_functions_normalize Response.plainFailure).2.2.2.1
      (.string "Internal Server Error") rfl rfl).2.2.1,
    ((request_functions_normalize { ok := false, text := "", json := none }).2.2.2.1
      .undefined rfl rfl).1,
    ((request_functions_normalize Response.numberSuccess).2.2.2.2.1 rfl).2.2.1⟩

/-- C14, as stated, fails: the payload `null` parses as JSON and carries no tag,
yet reading its `type` throws inside the `try` block, and the handler sets last
error to the fixed message. -/
theorem null_payload_sets_error :
    World.connected.ch.scriptErrorText = "" ∧
    (step Env.default World.connected (.message 0 (some .null))).ch.scriptErrorText =
      "脚本模块消息解析失败" ∧
    (step Env.default World.connected (.message 0 (some .null))).ch.scriptErrorText ≠
      World.connected.ch.scriptErrorText := by
  refine ⟨by decide, by decide, by decide⟩

/-- C14, amended: for every prior state and every inbound payload the message
handler returns normally; it sets last error to the fixed message when the
payload fails to parse as JSON or parses to `null` (a value without readable
properties), and otherwise it leaves last error as it was or clears it; every
payload that parses to a value other than `null` and whose `type` is not
`"script_upload_result"` (objects, numbers, strings, booleans and arrays) is
ignored, the message event leaving the whole state unchanged. -/
theorem onmessage_error_cases (env : Env) (w : World) (socket : Nat) (parsed : Option JSValue) :
    ∃ c1, onmessage w.ch parsed = .ok c1 ∧
      ((parsed = none ∨ parsed = some .null ∨ parsed = some .undefined) →
        c1 = { w.ch with scriptErrorText := "脚本模块消息解析失败" }) ∧
      (∀ payload, parsed = some payload → payload ≠ .null → payload ≠ .undefined →
        (c1 = w.ch ∨ c1.scriptErrorText = "")) ∧
      (∀ payload t, parsed = some payload → payload.getProp "type" = .ok t →
        t.strictNeString "script_upload_result" = true →
        c1 = w.ch ∧ step env w (.message socket parsed) = w) ∧
      (∀ payload, parsed = some payload →
        (∃ b, payload = .bool b) ∨ (∃ n, payload = .number n) ∨ (∃ s, payload = .string s) ∨
          (∃ xs, payload = .array xs) →
        c1 = w.ch ∧ step env w (.message socket parsed) = w) := by
  have ignored : ∀ payload t, payload.getProp "type" = .ok t →
      t.strictNeString "script_upload_result" = true →
      onmessage w.ch (some payload) = .ok w.ch ∧
        step env w (.message socket (some payload)) = w := by
    intro payload t hp ht
    have h := onmessage_ignored w.ch payload t hp ht
    refine ⟨h, ?_⟩
    simp only [step, h]
    split <;> rfl
  have thrown : ∀ payload, payload.getProp "type" = .error .TypeError →
      onmessage w.ch (some payload) =
        .ok { w.ch with scriptErrorText := "脚本模块消息解析失败" } := by
    intro payload hp
    simp [onmessage, onmessageTry_throws w.ch payload .TypeError hp]
  cases parsed with
  | none =>
    refine ⟨_, onmessage_failed w.ch, fun _ => rfl, ?_, ?_, ?_⟩
    · intro payload h
      cases h
    · intro payload t h
      cases h
    · intro payload h
      cases h
  | some payload =>
    cases payload with
    | undefined =>
      refine ⟨_, thrown .undefined rfl, fun _ => rfl, ?_, ?_, ?_⟩
      · intro payload h _ h2
        cases h
        exact absurd rfl h2
      · intro payload t h hp
        cases h
        cases hp
      · intro payload h hx
        cases h
        rcases hx with ⟨_, hx⟩ | ⟨_, hx⟩ | ⟨_, hx⟩ | ⟨_, hx⟩ <;> cases hx
    | null =>
      refine ⟨_, thrown .null rfl, fun _ => rfl, ?_, ?_, ?_⟩
      · intro payload h h1 _
        cases h
        exact absurd rfl h1
      · intro payload t h hp
        cases h
        cases hp
      · intro payload h hx
        cases h
        rcases hx with ⟨_, hx⟩ | ⟨_, hx⟩ | ⟨_, hx⟩ | ⟨_, hx⟩ <;> cases hx
    | object fields =>
      by_cases hn : ((fields.lookup "type").getD .undefined).strictNeString
          "script_upload_result" = true
      · obtain ⟨h1, h2⟩ := ignored (.object fields) _ rfl hn
        refine ⟨_, h1, ?_, fun _ _ _ _ => Or.inl rfl, ?_, ?_⟩
        · rintro (h | h | h) <;> cases h
        · intro payload t h _ _
          cases h
          exact ⟨rfl, h2⟩
        · intro payload h _
          cases h
          exact ⟨rfl, h2⟩
      · have hacc : onmessage w.ch (some (.object fields)) = .ok
            { (if ((fields.lookup "image_data_url").getD .undefined).truthy then
                  { w.ch with
                    scriptPreviewUrl := (fields.lookup "image_data_url").getD .undefined }
                else w.ch) with
              scriptFireDetected := ((fields.lookup "fire_detected").getD .undefined).truthy
              scriptResultText :=
                ((fields.lookup "result_text").getD .undefined).or (.string "")
              scriptErrorText := "" } := by
          simp [onmessage, onmessageTry_object, hn]
        refine ⟨_, hacc, ?_, fun _ _ _ _ => Or.inr rfl, ?_, ?_⟩
        · rintro (h | h | h) <;> cases h
        · intro payload t h hp ht
          cases h
          cases hp
          exact absurd ht hn
        · intro payload h hx
          cases h
          rcases hx with ⟨_, hx⟩ | ⟨_, hx⟩ | ⟨_, hx⟩ | ⟨_, hx⟩ <;> cases hx
    | bool b =>
      obtain ⟨h1, h2⟩ := ignored (.bool b) .undefined rfl rfl
      refine ⟨_, h1, ?_, fun _ _ _ _ => Or.inl rfl, ?_, ?_⟩
      · rintro (h | h | h) <;> cases h
      · intro payload t h _ _
        cases h
        exact ⟨rfl, h2⟩
      · intro payload h _
        cases h
        exact ⟨rfl, h2⟩
    | number n =>
      obtain ⟨h1, h2⟩ := ignored (.number n) .undefined rfl rfl
      refine ⟨_, h1, ?_, fun _ _ _ _ => Or.inl rfl, ?_, ?_⟩
      · rintro (h | h | h) <;> cases h
      · intro payload t h _ _
        cases h
        exact ⟨rfl, h2⟩
      · intro payload h _
        cases h
        exact ⟨rfl, h2⟩
    | string str =>
      obtain ⟨h1, h2⟩ := ignored (.string str) .undefined rfl rfl
      refine ⟨_, h1, ?_, fun _ _ _ _ => Or.inl rfl, ?_, ?_⟩
      · rintro (h | h | h) <;> cases h
      · intro payload t h _ _
        cases h
        exact ⟨rfl, h2⟩
      · intro payload h _
        cases h
        exact ⟨rfl, h2⟩
    | array xs =>
      obtain ⟨h1, h2⟩ := ignored (.array xs) .undefined rfl rfl
      refine ⟨_, h1, ?_, fun _ _ _ _ => Or.inl rfl, ?_, ?_⟩
      · rintro (h | h | h) <;> cases h
      · intro payload t h _ _
        cases h
        exact ⟨rfl, h2⟩
      · intro payload h _
        cases h
        exact ⟨rfl, h2⟩

/-- Witness for C14, amended: on the connection showing an earlier result, the
array `[]` and the message `{type: "other"}` are ignored, and the payload `null`
sets last error. -/
theorem onmessage_error_cases_witness :
    step Env.default World.showing (.message 0 (some (.array []))) = World.showing ∧
    step Env.default World.showing (.message 0 (some (.object otherMessage))) =
      World.showing ∧
    (step Env.default World.showing (.message 0 (some .null))).ch.scriptErrorText =
      "脚本模块消息解析失败" := by
  obtain ⟨c1, h1, _, _, _, h5⟩ :=
    onmessage_error_cases Env.default World.showing 0 (some (.array []))
  obtain ⟨c2, h6, _, _, h7, _⟩ :=
    onmessage_error_cases Env.default World.showing 0 (some (.object otherMessage))
  exact ⟨(h5 (.array []) rfl (Or.inr (Or.inr (Or.inr ⟨[], rfl⟩)))).2,
    (h7 (.object otherMessage) (.string "other") rfl rfl (by decide)).2, by decide⟩

/-- C15: for every state, an error event leaves the channel variables (tracked
socket, timer handle and the five refs), the pending timeouts and the ready state
of every other socket unchanged, and the socket it fired on is not live
afterwards; and in every reachable state, an error event on the tracked socket
followed by its close event leaves exactly one reconnect timer pending, the one
whose id is stored, with no socket tracked. -/
theorem error_only_closes (env : Env) (w : World) (socket : Nat) :
    (step env w (.error socket)).ch = w.ch ∧
    (step env w (.error socket)).timers = w.timers ∧
    (step env w (.error socket)).nextTimerId = w.nextTimerId ∧
    (∀ i, i ≠ socket → (step env w (.error socket)).readyStateOf i = w.readyStateOf i) ∧
    (step env w (.error socket)).isLive socket = false ∧
    (Reachable env w → w.ch.scriptSocket = some socket →
      (step env (step env w (.error socket)) (.close socket)).ch.scriptSocket = none ∧
      ∃ t, (step env (step env w (.error socket)) (.close socket)).timers = [t] ∧
        (step env (step env w (.error socket)) (.close socket)).ch.scriptReconnectTimer =
          some t) := by
  obtain ⟨h1, h2, h3⟩ := step_error_frame env w socket
  refine ⟨h1, h2, h3, ?_, ?_, ?_⟩
  · intro i hi
    simp only [step, onerror]
    split
    · simp [World.readyStateOf, World.closeSocket, List.getElem?_modify_ne _ _ (Ne.symm hi)]
    · rfl
  · cases hl : (step env w (.error socket)).isLive socket with
    | false => rfl
    | true =>
      simp only [step, onerror] at hl
      split at hl
      · exact absurd rfl (isLive_closeSocket w socket socket hl).2
      · rename_i hlt
        exact absurd (isLive_lt w socket hl) hlt
  · intro hr ht
    have hinv : Inv (step env w (.error socket)) :=
      inv_step env w (.error socket) (inv_reachable env w hr)
    have htr : (step env w (.error socket)).ch.scriptSocket = some socket := by
      rw [h1]
      exact ht
    obtain ⟨h4, _, h5⟩ := close_tracked_of_inv env _ socket hinv htr
    exact ⟨h4, h5⟩

/-- Witness for C15: on the opened connection an error event followed by the close
event arms timer 1 only, and on the reconnecting state, where timer 1 is already
pending, it keeps that one. -/
theorem error_only_closes_witness :
    (run Env.default World.connected [.error 0, .close 0]).timers = [1] ∧
    (run Env.default World.reconnecting [.error 1, .close 1]).timers = [1] ∧
    ((step Env.default (step Env.default World.reconnecting (.error 1)) (.close 1)).ch.scriptSocket
        = none ∧
      ∃ t, (step Env.default (step Env.default World.reconnecting (.error 1)) (.close 1)).timers
          = [t] ∧
        (step Env.default (step Env.default World.reconnecting (.error 1))
          (.close 1)).ch.scriptReconnectTimer = some t) :=
  ⟨by decide, by decide,
    (error_only_closes Env.default World.reconnecting 1).2.2.2.2.2 reconnecting_reachable
      (by decide)⟩

/-- C16: the code leaves the connection flag set after teardown. After
`connectScriptSocket()`, the open event of socket 0 and `cleanupScriptSocket()`, the
state is reachable, the flag is true and no socket is tracked; the late close
event of socket 0 does not reset the flag either. -/
theorem connected_flag_survives_cleanup :
    Reachable Env.default World.tornDown ∧
    World.tornDown.ch.scriptSocketConnected = true ∧
    World.tornDown.ch.scriptSocket = none ∧
    (step Env.default World.tornDown (.close 0)).ch.scriptSocketConnected = true ∧
    (step Env.default World.tornDown (.close 0)).ch.scriptSocket = none :=
  ⟨reachable_run _ _ _ Reachable.init, by decide, by decide, by decide, by decide⟩

/-- C17: for every string status, `getMonitorStatusText` applied to its own result
returns that result, the result is never the empty string, and
`getMonitorStatusClass` gives the same class for the status and for its text: the
class is `"monitor-status-fire"` exactly when the text is `"发生火灾"`,
`"monitor-status-normal"` exactly when it is `"无火灾"`, and the empty string
exactly when it is neither. -/
theorem status_text_idempotent (status : String) :
    getMonitorStatusText (some (getMonitorStatusText (some status))) =
      getMonitorStatusText (some status) ∧
    getMonitorStatusText (some status) ≠ "" ∧
    getMonitorStatusClass (some (getMonitorStatusText (some status))) =
      getMonitorStatusClass (some status) ∧
    (getMonitorStatusClass (some status) = "monitor-status-fire" ↔
      getMonitorStatusText (some status) = "发生火灾") ∧
    (getMonitorStatusClass (some status) = "monitor-status-normal" ↔
      getMonitorStatusText (some status) = "无火灾") ∧
    (getMonitorStatusClass (some status) = "" ↔
      (getMonitorStatusText (some status) ≠ "发生火灾" ∧
        getMonitorStatusText (some status) ≠ "无火灾")) := by
  refine ⟨statusText_idem (some status), statusText_ne_empty (some status), ?_, ?_, ?_, ?_⟩
  · unfold getMonitorStatusClass
    simp only [statusText_idem]
  · unfold getMonitorStatusClass
    simp only
    by_cases h1 : getMonitorStatusText (some status) = "发生火灾"
    · simp [h1]
    · by_cases h2 : getMonitorStatusText (some status) = "无火灾"
      · rw [if_neg h1, if_pos h2]
        simp only [h1, iff_false]
        decide
      · rw [if_neg h1, if_neg h2]
        simp only [h1, iff_false]
        decide
  · unfold getMonitorStatusClass
    simp only
    by_cases h1 : getMonitorStatusText (some status) = "发生火灾"
    · rw [if_pos h1, h1]
      decide
    · by_cases h2 : getMonitorStatusText (some status) = "无火灾"
      · simp [h1, h2]
      · rw [if_neg h1, if_neg h2]
        simp only [h2, iff_false]
        decide
  · unfold getMonitorStatusClass
    simp only
    by_cases h1 : getMonitorStatusText (some status) = "发生火灾"
    · rw [if_pos h1]
      simp only [h1, ne_eq, not_true_eq_false, false_and, iff_false]
      decide
    · by_cases h2 : getMonitorStatusText (some status) = "无火灾"
      · rw [if_neg h1, if_pos h2]
        simp only [h2, ne_eq, not_true_eq_false, and_false, iff_false]
        decide
      · rw [if_neg h1, if_neg h2]
        simp [h1, h2]

/-- Witness for C17: a padded upper-case `FIRE` is the fire status, an empty status
reads `"-"`, and the class of the fire status is `"monitor-status-fire"`. -/
theorem status_text_idempotent_witness :
    getMonitorStatusText (some " FIRE ") = "发生火灾" ∧
    getMonitorStatusText (some "") = "-" ∧
    getMonitorStatusText (some " on hold ") = "on hold" ∧
    getMonitorStatusClass (some " FIRE ") = "monitor-status-fire" :=
  ⟨by decide, by decide, by decide,
    (status_text_idempotent " FIRE ").2.2.2.1.2 (by decide)⟩

/-- C18: for every string, the result of `getWsBaseUrl` starts with neither
`"http://"` nor `"https://"`, and `getWsBaseUrl` applied to its own result returns
that result. -/
theorem getWsBaseUrl_idempotent (s : String) :
    startsWith (getWsBaseUrl s) "http://" = false ∧
    startsWith (getWsBaseUrl s) "https://" = false ∧
    (∀ r : String, getWsBaseUrl s ≠ "http://" ++ r) ∧
    (∀ r : String, getWsBaseUrl s ≠ "https://" ++ r) ∧
    getWsBaseUrl (getWsBaseUrl s) = getWsBaseUrl s := by
  have key : startsWith (getWsBaseUrl s) "http://" = false ∧
      startsWith (getWsBaseUrl s) "https://" = false := by
    unfold getWsBaseUrl
    by_cases h1 : startsWith s "https://" = true
    · rw [if_pos h1]
      simp [startsWith, List.isPrefixOf]
    · rw [if_neg h1]
      by_cases h2 : startsWith s "http://" = true
      · rw [if_pos h2]
        simp [startsWith, List.isPrefixOf]
      · rw [if_neg h2]
        exact ⟨by simpa using h2, by simpa using h1⟩
  refine ⟨key.1, key.2, ?_, ?_, ?_⟩
  · intro r hr
    have := (startsWith_iff (getWsBaseUrl s) "http://").2 ⟨r, hr⟩
    rw [key.1] at this
    exact absurd this (by simp)
  · intro r hr
    have := (startsWith_iff (getWsBaseUrl s) "https://").2 ⟨r, hr⟩
    rw [key.2] at this
    exact absurd this (by simp)
  · generalize getWsBaseUrl s = t at key
    simp [getWsBaseUrl, key.1, key.2]

/-- C19: for every `apiBase`, `resolveMonitorImageUrl` returns a url that starts
with `"http://"` or `"https://"` as it is, returns the empty string for the empty
url, and for every non-empty path `p` that starts with none of `"/"`,
`"http://"`, `"https://"` it returns `apiBase ++ "/" ++ p` both for `"/" ++ p` and
for `p`. -/
theorem resolveMonitorImageUrl_spec (apiBase : String) :
    (∀ url, startsWith url "http://" = true ∨ startsWith url "https://" = true →
      resolveMonitorImageUrl (some url) apiBase = url) ∧
    resolveMonitorImageUrl (some "") apiBase = "" ∧
    (∀ p, p ≠ "" → startsWith p "/" = false → startsWith p "http://" = false →
      startsWith p "https://" = false →
      resolveMonitorImageUrl (some ("/" ++ p)) apiBase = apiBase ++ "/" ++ p ∧
      resolveMonitorImageUrl (some p) apiBase = apiBase ++ "/" ++ p ∧
      resolveMonitorImageUrl (some ("/" ++ p)) apiBase =
        resolveMonitorImageUrl (some p) apiBase) := by
  refine ⟨?_, ?_, ?_⟩
  · intro url h
    have hne : url ≠ "" := by
      rintro rfl
      rcases h with h | h <;> exact absurd h (by decide)
    have hor : (startsWith url "http://" || startsWith url "https://") = true := by
      simpa using h
    simp [resolveMonitorImageUrl, hne, hor]
  · simp [resolveMonitorImageUrl]
  · intro p hp h1 h2 h3
    have a : resolveMonitorImageUrl (some ("/" ++ p)) apiBase = apiBase ++ "/" ++ p := by
      have e1 : "/" ++ p ≠ "" := by
        intro e
        have := congrArg String.length e
        simp only [String.length_append] at this
        have h0 : "/".length = 1 := by decide
        have h5 : "".length = 0 := by decide
        omega
      have e2 : startsWith ("/" ++ p) "http://" = false := by
        simp [startsWith, List.isPrefixOf]
      have e3 : startsWith ("/" ++ p) "https://" = false := by
        simp [startsWith, List.isPrefixOf]
      have e4 : startsWith ("/" ++ p) "/" = true := (startsWith_iff _ _).2 ⟨p, rfl⟩
      simp [resolveMonitorImageUrl, e1, e2, e3, e4, String.append_assoc]
    have b : resolveMonitorImageUrl (some p) apiBase = apiBase ++ "/" ++ p := by
      simp [resolveMonitorImageUrl, hp, h1, h2, h3]
    exact ⟨a, b, a.trans b.symm⟩

/-- Witness for C19: an absolute url passes through, and `"/img/a.png"` and
`"img/a.png"` both resolve to `"http://h/img/a.png"`. -/
theorem resolveMonitorImageUrl_spec_witness :
    resolveMonitorImageUrl (some "https://cdn/a.png") "http://h" = "https://cdn/a.png" ∧
    resolveMonitorImageUrl (some "/img/a.png") "http://h" = "http://h/img/a.png" ∧
    resolveMonitorImageUrl (some "img/a.png") "http://h" = "http://h/img/a.png" :=
  ⟨(resolveMonitorImageUrl_spec "http://h").1 "https://cdn/a.png" (Or.inr (by decide)),
    ((resolveMonitorImageUrl_spec "http://h").2.2 "img/a.png" (by decide) (by decide)
      (by decide) (by decide)).1,
    ((resolveMonitorImageUrl_spec "http://h").2.2 "img/a.png" (by decide) (by decide)
      (by decide) (by decide)).2.1⟩

end FireFrontend
